import Mathlib

/-!
# Seastar worker service: receive protocols

A shallow embedding of `tensorflow/contrib/seastar/seastar_worker_service.cc`
and `seastar_tensor_coding.cc`.

Every side effect the code performs on a collaborator (the call options, the
rendezvous manager, the device context, the completion callback, the
process) is recorded, in program order, in a trace of events.  A completion
callback event carries the value the response has at that moment.
Asynchronous continuations (the lambdas handed to the rendezvous manager and
to the device context) are separate definitions; a `_run` definition chains
them for a collaborator that invokes its callback exactly once.

The monitoring reports (`CAT_LOG`) and the verbose log (`VLOG`) only read the
clock and write to a sink; they are not part of the trace.
-/

namespace tensorflow

/-! ## Status -/

/-- The error codes of `tensorflow::error::Code` the service can meet. -/
inductive Code where
  | OK
  | CANCELLED
  | UNKNOWN
  | INVALID_ARGUMENT
  | DEADLINE_EXCEEDED
  | NOT_FOUND
  | ABORTED
  | UNIMPLEMENTED
  | INTERNAL
  | UNAVAILABLE
  deriving DecidableEq, Repr

/-- A `tensorflow::Status`: a code and an error message. -/
structure Status where
  code : Code
  error_message : String
  deriving DecidableEq, Repr

/-- The default-constructed `Status()`, which is OK. -/
def Status.OK : Status := ⟨Code.OK, ""⟩

/-- `Status::ok()`. -/
def Status.ok (s : Status) : Bool := decide (s.code = Code.OK)

instance : Inhabited Status := ⟨Status.OK⟩

/-- `errors::Unimplemented(msg)`. -/
def errors.Unimplemented (msg : String) : Status := ⟨Code.UNIMPLEMENTED, msg⟩

/-- `errors::Internal(msg)`. -/
def errors.Internal (msg : String) : Status := ⟨Code.INTERNAL, msg⟩

/-! ## Tensors, devices, rendezvous arguments -/

/-- The element types of `tensorflow::DataType`. -/
inductive DataType where
  | DT_FLOAT | DT_DOUBLE | DT_INT32 | DT_UINT8 | DT_INT16 | DT_INT8
  | DT_STRING | DT_COMPLEX64 | DT_INT64 | DT_BOOL | DT_QINT8 | DT_QUINT8
  | DT_QINT32 | DT_BFLOAT16 | DT_QINT16 | DT_QUINT16 | DT_UINT16
  | DT_COMPLEX128 | DT_HALF | DT_RESOURCE | DT_VARIANT | DT_UINT32
  | DT_UINT64
  deriving DecidableEq, Repr

/-- Modelled from the spec: `DataTypeCanUseMemcpy` (declared in
`tensorflow/core/framework/types.h`, not among the sources here) tells
whether an element type is safely bulk-copyable; strings, resources and
variants are not. -/
def DataTypeCanUseMemcpy : DataType → Bool
  | .DT_STRING => false
  | .DT_RESOURCE => false
  | .DT_VARIANT => false
  | _ => true

/-- A `Tensor`: an element type, a shape and the bytes of its buffer. -/
structure Tensor where
  dtype : DataType
  shape : List Nat
  data : List Nat
  deriving DecidableEq, Repr

/-- The default-constructed `Tensor()`: a float tensor of shape `[0]`. -/
def Tensor.empty : Tensor := ⟨DataType.DT_FLOAT, [0], []⟩

instance : Inhabited Tensor := ⟨Tensor.empty⟩

/-- A `TensorProto`, the serialized representation; `dtype` is absent in a
default-constructed message. -/
structure TensorProto where
  dtype : Option DataType
  tensor_shape : List Nat
  tensor_content : List Nat
  deriving DecidableEq, Repr

/-- The default-constructed `TensorProto()`. -/
def TensorProto.empty : TensorProto := ⟨none, [], []⟩

instance : Inhabited TensorProto := ⟨TensorProto.empty⟩

/-- Modelled from the spec: `Tensor::AsProtoTensorContent` (defined in
`tensorflow/core/framework/tensor.cc`, not among the sources here)
serializes the value into the alternate representation: the message is
overwritten with the element type, the shape and the bytes of the value. -/
def Tensor.AsProtoTensorContent (val : Tensor) (_proto : TensorProto) : TensorProto :=
  ⟨some val.dtype, val.shape, val.data⟩

/-- `AllocatorAttributes`: the two bits this code reads or sets. -/
structure AllocatorAttributes where
  on_host : Bool
  gpu_compatible : Bool
  deriving DecidableEq, Repr

/-- The default-constructed `AllocatorAttributes()`. -/
def AllocatorAttributes.empty : AllocatorAttributes := ⟨false, false⟩

instance : Inhabited AllocatorAttributes := ⟨AllocatorAttributes.empty⟩

/-- A `Device` as far as this code looks at it: its name, its device type, and
whether `tensorflow_gpu_device_info()` is non-null. -/
structure Device where
  name : String
  device_type : String
  tensorflow_gpu_device_info : Bool
  deriving DecidableEq, Repr

instance : Inhabited Device := ⟨⟨"", "", false⟩⟩

/-- An allocator handle: `Device::GetAllocator(attrs)` of a device. -/
structure Allocator where
  device : Device
  attrs : AllocatorAttributes
  deriving DecidableEq, Repr

/-- `Device::GetAllocator`. -/
def Device.GetAllocator (d : Device) (aa : AllocatorAttributes) : Allocator := ⟨d, aa⟩

/-- A `Rendezvous::ParsedKey`, kept as the key it was parsed from together
with the source device name the parser extracted. -/
structure ParsedKey where
  full_key : String
  src_device : String
  deriving DecidableEq, Repr

instance : Inhabited ParsedKey := ⟨⟨"", ""⟩⟩

/-- `Rendezvous::Args`: `device_context` tells whether the pointer is
non-null. -/
structure Args where
  device_context : Bool
  alloc_attrs : AllocatorAttributes
  rendezvous_micros : Int
  deriving DecidableEq, Repr

instance : Inhabited Args := ⟨⟨false, AllocatorAttributes.empty, 0⟩⟩

/-! ## Call options -/

/-- The cancellation callbacks this file registers; both only log. -/
inductive CancelCallback where
  | logRecvTensorCancelled (step_id : Int)
  | logFuseRecvTensorCancelled (step_id : Int)
  deriving DecidableEq, Repr

/-- `CallOptions`: the single cancellation slot and the timing delta. -/
structure CallOptions where
  cancel_func : Option CancelCallback
  delta_micros : Int
  deriving DecidableEq, Repr

/-- `CallOptions::SetCancelCallback`. -/
def CallOptions.SetCancelCallback (opts : CallOptions) (cb : CancelCallback) : CallOptions :=
  { opts with cancel_func := some cb }

/-- `CallOptions::ClearCancelCallback`. -/
def CallOptions.ClearCancelCallback (opts : CallOptions) : CallOptions :=
  { opts with cancel_func := none }

/-! ## Responses (`seastar_tensor_coding`) -/

/-- The fields of `SeastarTensorResponse`. -/
structure SeastarTensorResponse where
  on_host : Bool
  device : Option Device
  alloc_attrs : AllocatorAttributes
  allocator : Option Allocator
  tensor : Tensor
  tensor_proto : TensorProto
  is_dead : Bool
  send_start_micros : Int
  deriving DecidableEq, Repr

/-- A freshly constructed response, as `new SeastarCall<...>()` makes it. -/
def SeastarTensorResponse.fresh : SeastarTensorResponse :=
  ⟨false, none, AllocatorAttributes.empty, none, Tensor.empty, TensorProto.empty, false, 0⟩

instance : Inhabited SeastarTensorResponse := ⟨SeastarTensorResponse.fresh⟩

/-- `SeastarTensorResponse::Clear`. -/
def SeastarTensorResponse.Clear (r : SeastarTensorResponse) : SeastarTensorResponse :=
  { r with
    on_host := false
    device := none
    alloc_attrs := AllocatorAttributes.empty
    allocator := none
    tensor := Tensor.empty
    tensor_proto := TensorProto.empty }

/-- `SeastarTensorResponse::InitAlloc`; `d.device_type` is
`d->attributes().device_type()`. -/
def SeastarTensorResponse.InitAlloc (r : SeastarTensorResponse) (d : Device)
    (aa : AllocatorAttributes) : SeastarTensorResponse :=
  let r := r.Clear
  let r := { r with device := some d }
  let r := { r with alloc_attrs := aa }
  let da_device_type := d.device_type
  let r :=
    if r.alloc_attrs.on_host || da_device_type == "CPU" then { r with on_host := true }
    else r
  { r with allocator := r.device.map (fun dev => dev.GetAllocator r.alloc_attrs) }

/-- Modelled from the spec: `SeastarTensorResponse::SetIsDead` (an inline
setter of `seastar_tensor_coding.h`, not among the sources here) tags the
response with the is-dead flag. -/
def SeastarTensorResponse.SetIsDead (r : SeastarTensorResponse) (is_dead : Bool) :
    SeastarTensorResponse :=
  { r with is_dead := is_dead }

/-- Modelled from the spec: `SeastarTensorResponse::set_send_start_micros`
(an inline setter of `seastar_tensor_coding.h`, not among the sources here). -/
def SeastarTensorResponse.set_send_start_micros (r : SeastarTensorResponse) (t : Int) :
    SeastarTensorResponse :=
  { r with send_start_micros := t }

/-- Modelled from the spec: `SeastarTensorResponse::SetTensor` (an inline
setter of `seastar_tensor_coding.h`, not among the sources here) sets the
value directly into the response. -/
def SeastarTensorResponse.SetTensor (r : SeastarTensorResponse) (t : Tensor) :
    SeastarTensorResponse :=
  { r with tensor := t }

/-! ## Requests and collaborators -/

/-- The fields of `RecvTensorRequest` the worker reads. -/
structure RecvTensorRequest where
  step_id : Int
  rendezvous_key : String
  recv_req_start_micros : Int
  deriving DecidableEq, Repr

/-- The fields of `FuseRecvTensorRequest` the worker reads; `rendezvous_key`
is the repeated field. -/
structure FuseRecvTensorRequest where
  step_id : Int
  rendezvous_key : List String
  recv_req_start_micros : Int
  deriving DecidableEq, Repr

/-- `FuseRecvTensorRequest::rendezvous_key_size`. -/
def FuseRecvTensorRequest.rendezvous_key_size (r : FuseRecvTensorRequest) : Nat :=
  r.rendezvous_key.length

/-- The two collaborators consulted before a lookup, taken as parameters:
`Rendezvous::ParseKey(key, &parsed)` and
`Worker::PrepareRecvTensor(parsed, &src_dev)`, each returning its status
together with its out-parameter. -/
structure WorkerEnv where
  ParseKey : String → Status × ParsedKey
  PrepareRecvTensor : ParsedKey → Status × Device

/-! ## Traces -/

/-- What the code does to its collaborators, in program order.  `done s r` is
an invocation of the completion callback with status `s` while the response
holds `r`; `abort` is `abort()`; `CheckFailed` is a failed `CHECK`, which
terminates the process as well. -/
inductive Event (R : Type) where
  | LogWarning (msg : String)
  | SetCancelCallback (cb : CancelCallback)
  | RecvLocalAsync (step_id : Int) (parsed : ParsedKey)
  | FuseRecvLocalAsync (step_id : Int) (parsed_keys : List ParsedKey)
  | ClearCancelCallback
  | CopyDeviceTensorToCPU (val : Tensor) (key : String) (src_dev : Device)
  | done (s : Status) (response : R)
  | abort
  | CheckFailed (msg : String)
  | delete_src_devs
  | delete_fuse_counter
  | delete_cpu_copy
  deriving DecidableEq, Repr

/-- The state one call works on: its call options, its response, the trace so
far, and whether the process has been terminated. -/
structure CallState (R : Type) where
  opts : CallOptions
  response : R
  trace : List (Event R)
  terminated : Bool
  deriving DecidableEq, Repr

/-- The state a handler starts the worker method in. -/
def CallState.init {R : Type} (opts : CallOptions) (response : R) : CallState R :=
  ⟨opts, response, [], false⟩

/-- Record an event. -/
def CallState.emit {R : Type} (st : CallState R) (e : Event R) : CallState R :=
  { st with trace := st.trace ++ [e] }

/-- `done(s)`: the completion callback sees the response as it is now. -/
def CallState.done {R : Type} (st : CallState R) (s : Status) : CallState R :=
  st.emit (Event.done s st.response)

/-- `opts->SetCancelCallback(cb)`. -/
def CallState.SetCancelCallback {R : Type} (st : CallState R) (cb : CancelCallback) :
    CallState R :=
  { st with opts := st.opts.SetCancelCallback cb, trace := st.trace ++ [Event.SetCancelCallback cb] }

/-- `opts->ClearCancelCallback()`. -/
def CallState.ClearCancelCallback {R : Type} (st : CallState R) : CallState R :=
  { st with opts := st.opts.ClearCancelCallback, trace := st.trace ++ [Event.ClearCancelCallback] }

/-- `abort()`. -/
def CallState.abort {R : Type} (st : CallState R) : CallState R :=
  { st with trace := st.trace ++ [Event.abort], terminated := true }

/-- A failed `CHECK(...) << msg`: fatal. -/
def CallState.CheckFailed {R : Type} (st : CallState R) (msg : String) : CallState R :=
  { st with trace := st.trace ++ [Event.CheckFailed msg], terminated := true }

/-- Is the event an invocation of the completion callback? -/
def Event.isDone {R : Type} : Event R → Bool
  | .done _ _ => true
  | _ => false

/-- Is the event a registration of a cancellation callback? -/
def Event.isSetCancel {R : Type} : Event R → Bool
  | .SetCancelCallback _ => true
  | _ => false

/-- Is the event a clearing of the cancellation callback? -/
def Event.isClearCancel {R : Type} : Event R → Bool
  | .ClearCancelCallback => true
  | _ => false

/-- Is the event a rendezvous lookup, single or batched? -/
def Event.isLookup {R : Type} : Event R → Bool
  | .RecvLocalAsync _ _ => true
  | .FuseRecvLocalAsync _ _ => true
  | _ => false

/-- How often the completion callback was invoked. -/
def doneCount {R : Type} (tr : List (Event R)) : Nat := tr.countP Event.isDone

/-- The invocations of the completion callback, in order: status and the
response as it was then. -/
def doneCalls {R : Type} : List (Event R) → List (Status × R)
  | [] => []
  | .done s r :: tr => (s, r) :: doneCalls tr
  | _ :: tr => doneCalls tr

/-! ## `SeastarWorker::RecvTensorAsync` -/

/-- What the lambda handed to `RecvLocalAsync` has captured besides `opts`,
`response` and `done`. -/
structure RecvLocalCapture where
  request : RecvTensorRequest
  src_dev : Device
  key : String
  deriving DecidableEq, Repr

/-- The arguments the rendezvous manager passes to the lookup callback. -/
structure RecvLocalResult where
  status : Status
  send_args : Args
  recv_args : Args
  val : Tensor
  is_dead : Bool
  deriving DecidableEq, Repr

/-- The outcome of `CopyDeviceTensorToCPU`: the status passed to its callback
and the bytes it has written into the host buffer. -/
structure CopyResult where
  status : Status
  data : List Nat
  deriving DecidableEq, Repr

/-- The body of `RecvTensorAsync` up to the call of `RecvLocalAsync`.  The
second component is the pending lookup callback, if the lookup was issued. -/
def RecvTensorAsync (env : WorkerEnv) (st : CallState SeastarTensorResponse)
    (request : RecvTensorRequest) :
    CallState SeastarTensorResponse × Option RecvLocalCapture :=
  let step_id := request.step_id
  let key := request.rendezvous_key
  let p := env.ParseKey key
  let parsed := p.2
  let q := if p.1.ok then env.PrepareRecvTensor parsed else (p.1, default)
  let s := q.1
  let src_dev := q.2
  if !s.ok then
    let st := st.emit (Event.LogWarning ("PrepareRecvTensor failed, tensor:" ++ key))
    let st := st.done s
    (st.abort, none)
  else
    let st := st.SetCancelCallback (CancelCallback.logRecvTensorCancelled step_id)
    let st := st.emit (Event.RecvLocalAsync step_id parsed)
    (st, some ⟨request, src_dev, key⟩)

/-- The lambda handed to `RecvLocalAsync`; `now` is the clock reading taken
for `set_send_start_micros`.  The second component is the host buffer of the
pending device-to-host copy, if one was issued. -/
def RecvLocalAsync_callback (now : Int) (cap : RecvLocalCapture)
    (st : CallState SeastarTensorResponse) (status : Status) (send_args : Args)
    (_recv_args : Args) (val : Tensor) (is_dead : Bool) :
    CallState SeastarTensorResponse × Option Tensor :=
  let st := st.ClearCancelCallback
  if status.ok then
    let st := { st with response := st.response.SetIsDead is_dead }
    let st := { st with response := st.response.set_send_start_micros now }
    let can_memcpy := DataTypeCanUseMemcpy val.dtype
    if cap.src_dev.tensorflow_gpu_device_info && !send_args.alloc_attrs.on_host then
      if !send_args.device_context then
        (st.CheckFailed ("send dev name: " ++ cap.src_dev.name), none)
      else
        let alloc_attrs := AllocatorAttributes.empty
        let alloc_attrs := { alloc_attrs with gpu_compatible := true }
        let alloc_attrs := { alloc_attrs with on_host := true }
        let _alloc := cap.src_dev.GetAllocator alloc_attrs
        let cpu_copy : Tensor := ⟨val.dtype, val.shape, []⟩
        let st := st.emit
          (Event.CopyDeviceTensorToCPU val cap.request.rendezvous_key cap.src_dev)
        (st, some cpu_copy)
    else
      let st := { st with response := st.response.SetTensor val }
      let st :=
        if !can_memcpy then
          { st with response :=
              { st.response with
                tensor_proto := val.AsProtoTensorContent st.response.tensor_proto } }
        else st
      (st.done Status.OK, none)
  else
    (st.done status, none)

/-- The lambda handed to `CopyDeviceTensorToCPU`; `cpu_copy` is the host
buffer as the device context has left it. -/
def CopyDeviceTensorToCPU_callback (st : CallState SeastarTensorResponse)
    (cpu_copy : Tensor) (s : Status) : CallState SeastarTensorResponse :=
  if !s.ok then
    st.CheckFailed "copy tensor from gpu sync"
  else
    let st := { st with response := st.response.SetTensor cpu_copy }
    let st := st.emit Event.delete_cpu_copy
    st.done s

/-- One whole recv-tensor call against collaborators that invoke their
callbacks exactly once: the rendezvous manager answers the lookup with
`lookup`, the device context answers the copy with `copy`. -/
def RecvTensorAsync_run (env : WorkerEnv) (now : Int) (opts : CallOptions)
    (request : RecvTensorRequest) (response : SeastarTensorResponse)
    (lookup : RecvLocalResult) (copy : CopyResult) : CallState SeastarTensorResponse :=
  match RecvTensorAsync env (CallState.init opts response) request with
  | (st, none) => st
  | (st, some cap) =>
    match RecvLocalAsync_callback now cap st lookup.status lookup.send_args
        lookup.recv_args lookup.val lookup.is_dead with
    | (st, none) => st
    | (st, some cpu_copy) =>
      CopyDeviceTensorToCPU_callback st { cpu_copy with data := copy.data } copy.status

/-! ## `SeastarFuseTensorResponse` -/

/-- The fields of `SeastarFuseTensorResponse`, which derives from
`SeastarTensorResponse`. -/
structure SeastarFuseTensorResponse extends SeastarTensorResponse where
  fuse_count : Nat
  tensors : List Tensor
  tensor_protos : List TensorProto
  is_deads : List Bool
  deriving DecidableEq, Repr

/-- A freshly constructed fused response. -/
def SeastarFuseTensorResponse.fresh : SeastarFuseTensorResponse :=
  { toSeastarTensorResponse := SeastarTensorResponse.fresh
    fuse_count := 0
    tensors := []
    tensor_protos := []
    is_deads := [] }

instance : Inhabited SeastarFuseTensorResponse := ⟨SeastarFuseTensorResponse.fresh⟩

/-- `SeastarFuseTensorResponse::Clear`. -/
def SeastarFuseTensorResponse.Clear (r : SeastarFuseTensorResponse) :
    SeastarFuseTensorResponse :=
  { toSeastarTensorResponse := r.toSeastarTensorResponse.Clear
    fuse_count := 0
    tensors := []
    tensor_protos := []
    is_deads := [] }

/-- `std::vector::resize(n)`: keep the first `n` elements, pad with
value-initialised ones. -/
def resize {α : Type} [Inhabited α] (v : List α) (n : Nat) : List α :=
  v.take n ++ List.replicate (n - v.length) default

/-- Modelled from the spec: `SeastarFuseTensorResponse::Init` (an inline
method of `seastar_tensor_coding.h`, not among the sources here) initialises
the response with `fuse_count` slots: the count is stored and the three
per-index sequences are resized to it. -/
def SeastarFuseTensorResponse.Init (r : SeastarFuseTensorResponse) (fuse_count : Nat) :
    SeastarFuseTensorResponse :=
  { r with
    fuse_count := fuse_count
    tensors := resize r.tensors fuse_count
    tensor_protos := resize r.tensor_protos fuse_count
    is_deads := resize r.is_deads fuse_count }

/-- Modelled from the spec: `SeastarFuseTensorResponse::SetIsDeadByIndex` (an
inline setter of `seastar_tensor_coding.h`, not among the sources here) sets
the is-dead flag of slot `idx`. -/
def SeastarFuseTensorResponse.SetIsDeadByIndex (r : SeastarFuseTensorResponse)
    (idx : Nat) (is_dead : Bool) : SeastarFuseTensorResponse :=
  { r with is_deads := r.is_deads.set idx is_dead }

/-- Modelled from the spec: `SeastarFuseTensorResponse::SetTensorByIndex` (an
inline setter of `seastar_tensor_coding.h`, not among the sources here) sets
the value of slot `idx`. -/
def SeastarFuseTensorResponse.SetTensorByIndex (r : SeastarFuseTensorResponse)
    (idx : Nat) (t : Tensor) : SeastarFuseTensorResponse :=
  { r with tensors := r.tensors.set idx t }

/-- Writing through the reference `GetTensorProtoByIndex(idx)` returns. -/
def SeastarFuseTensorResponse.SetTensorProtoByIndex (r : SeastarFuseTensorResponse)
    (idx : Nat) (p : TensorProto) : SeastarFuseTensorResponse :=
  { r with tensor_protos := r.tensor_protos.set idx p }

/-- Modelled from the spec: `SeastarFuseTensorResponse::GetTensorProtoByIndex`
(an inline getter of `seastar_tensor_coding.h`, not among the sources here). -/
def SeastarFuseTensorResponse.GetTensorProtoByIndex (r : SeastarFuseTensorResponse)
    (idx : Nat) : TensorProto :=
  r.tensor_protos.getD idx default

/-- `set_send_start_micros` on the fused response. -/
def SeastarFuseTensorResponse.set_send_start_micros (r : SeastarFuseTensorResponse)
    (t : Int) : SeastarFuseTensorResponse :=
  { r with send_start_micros := t }

/-! ## `SeastarWorker::FuseRecvTensorAsync` -/

/-- What the lambda handed to `FuseRecvLocalAsync` has captured besides
`opts`, `response` and `done`. -/
structure FuseRecvLocalCapture where
  request : FuseRecvTensorRequest
  fuse_count : Nat
  src_devs : List Device
  step_id : Int
  deriving DecidableEq, Repr

/-- The arguments the rendezvous manager passes to the batched-lookup
callback. -/
structure FuseRecvLocalResult where
  status : Status
  send_argses : List Args
  recv_args : Args
  vals : List Tensor
  is_deads : List Bool
  deriving DecidableEq, Repr

/-- The first `for` loop of `FuseRecvTensorAsync`, from index `idx` with `n`
iterations to go: parse every key and resolve every source device.  `none`
means the loop has returned from the function after reporting a failure. -/
def FuseRecvTensorAsync.keyLoop (env : WorkerEnv) (request : FuseRecvTensorRequest)
    (st : CallState SeastarFuseTensorResponse) :
    Nat → Nat → List ParsedKey → List Device →
      CallState SeastarFuseTensorResponse × Option (List ParsedKey × List Device)
  | 0, _, parsed_keys, src_devs => (st, some (parsed_keys, src_devs))
  | n + 1, idx, parsed_keys, src_devs =>
    let key := request.rendezvous_key.getD idx ""
    let p := env.ParseKey key
    let parsed_keys := parsed_keys.set idx p.2
    let q := if p.1.ok then env.PrepareRecvTensor (parsed_keys.getD idx default)
             else (p.1, src_devs.getD idx default)
    let s := q.1
    let src_devs := src_devs.set idx q.2
    if !s.ok then
      let st := st.emit (Event.LogWarning ("PrepareRecvTensor failed, tensor:" ++ key))
      let st := st.emit Event.delete_src_devs
      (st.done s, none)
    else
      FuseRecvTensorAsync.keyLoop env request st n (idx + 1) parsed_keys src_devs

/-- The body of `FuseRecvTensorAsync` up to the call of `FuseRecvLocalAsync`.
The second component is the pending batched-lookup callback, if the lookup
was issued. -/
def FuseRecvTensorAsync (env : WorkerEnv) (st : CallState SeastarFuseTensorResponse)
    (request : FuseRecvTensorRequest) :
    CallState SeastarFuseTensorResponse × Option FuseRecvLocalCapture :=
  let step_id := request.step_id
  let fuse_count := request.rendezvous_key_size
  let parsed_keys : List ParsedKey := List.replicate fuse_count default
  let src_devs : List Device := List.replicate fuse_count default
  match FuseRecvTensorAsync.keyLoop env request st fuse_count 0 parsed_keys src_devs with
  | (st, none) => (st, none)
  | (st, some (parsed_keys, src_devs)) =>
    let st := st.SetCancelCallback (CancelCallback.logFuseRecvTensorCancelled step_id)
    let st := st.emit (Event.FuseRecvLocalAsync step_id parsed_keys)
    (st, some ⟨request, fuse_count, src_devs, step_id⟩)

/-- The body of the second `for` loop, inside the batched-lookup callback, at
index `idx`.  The state is the call state together with the value of
`*fuse_counter`. -/
def FuseRecvLocalAsync_callback.slotBody (now : Int) (src_devs : List Device)
    (send_argses : List Args) (vals : List Tensor) (is_deads : List Bool) (idx : Nat) :
    CallState SeastarFuseTensorResponse × Int → CallState SeastarFuseTensorResponse × Int
  | (st, fuse_counter) =>
    let st := { st with
      response := st.response.SetIsDeadByIndex idx (is_deads.getD idx default) }
    let can_memcpy := DataTypeCanUseMemcpy (vals.getD idx default).dtype
    if (src_devs.getD idx default).tensorflow_gpu_device_info &&
        !(send_argses.getD idx default).alloc_attrs.on_host then
      let st := st.done (errors.Internal "No GPU device in process")
      (st, fuse_counter)
    else
      let st := { st with
        response := st.response.SetTensorByIndex idx (vals.getD idx default) }
      let st :=
        if !can_memcpy then
          let proto := (vals.getD idx default).AsProtoTensorContent
            (st.response.GetTensorProtoByIndex idx)
          { st with response := st.response.SetTensorProtoByIndex idx proto }
        else st
      let fuse_counter := fuse_counter - 1
      if fuse_counter == 0 then
        let st := { st with response := st.response.set_send_start_micros now }
        let st := st.done Status.OK
        let st := st.emit Event.delete_src_devs
        (st.emit Event.delete_fuse_counter, fuse_counter)
      else (st, fuse_counter)

/-- The second `for` loop, from index `idx` with `n` iterations to go. -/
def FuseRecvLocalAsync_callback.slotLoop (now : Int) (src_devs : List Device)
    (send_argses : List Args) (vals : List Tensor) (is_deads : List Bool) :
    Nat → Nat → CallState SeastarFuseTensorResponse × Int →
      CallState SeastarFuseTensorResponse × Int
  | 0, _, acc => acc
  | n + 1, idx, acc =>
    FuseRecvLocalAsync_callback.slotLoop now src_devs send_argses vals is_deads n (idx + 1)
      (FuseRecvLocalAsync_callback.slotBody now src_devs send_argses vals is_deads idx acc)

/-- The lambda handed to `FuseRecvLocalAsync`. -/
def FuseRecvLocalAsync_callback (now : Int) (cap : FuseRecvLocalCapture)
    (st : CallState SeastarFuseTensorResponse) (status : Status)
    (send_argses : List Args) (_recv_args : Args) (vals : List Tensor)
    (is_deads : List Bool) : CallState SeastarFuseTensorResponse :=
  let st := st.ClearCancelCallback
  if status.ok then
    let st := { st with response := st.response.Init cap.fuse_count }
    let fuse_counter : Int := cap.fuse_count
    (FuseRecvLocalAsync_callback.slotLoop now cap.src_devs send_argses vals is_deads
      cap.fuse_count 0 (st, fuse_counter)).1
  else
    let st := st.emit Event.delete_src_devs
    st.done status

/-- One whole fused-recv-tensor call against a rendezvous manager that invokes
the batched-lookup callback exactly once, with `lookup`. -/
def FuseRecvTensorAsync_run (env : WorkerEnv) (now : Int) (opts : CallOptions)
    (request : FuseRecvTensorRequest) (response : SeastarFuseTensorResponse)
    (lookup : FuseRecvLocalResult) : CallState SeastarFuseTensorResponse :=
  match FuseRecvTensorAsync env (CallState.init opts response) request with
  | (st, none) => st
  | (st, some cap) =>
    FuseRecvLocalAsync_callback now cap st lookup.status lookup.send_argses
      lookup.recv_args lookup.vals lookup.is_deads

/-! ## `SeastarWorkerService`: the handlers -/

/-- The method identifiers of `SeastarWorkerServiceMethod`. -/
inductive SeastarWorkerServiceMethod where
  | kRunGraph | kRecvTensor | kGetStatus | kCreateWorkerSession
  | kDeleteWorkerSession | kRegisterGraph | kDeregisterGraph | kCleanupGraph
  | kCleanupAll | kLogging | kTracing | kRecvBuf | kCompleteGroup
  | kCompleteInstance | kGetStepSequence | kFuseRecvTensor
  deriving DecidableEq, Repr

/-- The call handle the transport hands to a handler. -/
structure SeastarServerTag where
  id : Nat
  deriving DecidableEq, Repr

/-- The readings a handler takes from its surroundings: whether monitoring is
on at a level (`CAT_LOG_IS_ON`) and the clock (`NowMicros`). -/
structure ServiceEnv where
  CAT_LOG_IS_ON : Nat → Bool
  NowMicros : Int

/-- The closures the handlers schedule on the worker pool, each named after
the worker method its body calls, with the values it has captured. -/
inductive PoolTask where
  | RunGraph (tag : SeastarServerTag) (delta_micros : Int)
  | GetStatus (tag : SeastarServerTag)
  | CreateWorkerSession (tag : SeastarServerTag)
  | DeleteWorkerSession (tag : SeastarServerTag)
  | CleanupAll (tag : SeastarServerTag)
  | RegisterGraph (tag : SeastarServerTag)
  | DeregisterGraph (tag : SeastarServerTag)
  | CleanupGraph (tag : SeastarServerTag)
  | Logging (tag : SeastarServerTag)
  | Tracing (tag : SeastarServerTag)
  | FuseRecvTensor (tag : SeastarServerTag) (handle_start_micros : Int)
  | RecvTensor (tag : SeastarServerTag) (handle_start_micros : Int)
  deriving DecidableEq, Repr

/-- What a handler does on the calling thread: schedule a task on the worker
pool, complete the call, or call a method of the worker. -/
inductive ServiceEvent where
  | Schedule (f : PoolTask)
  | ProcessDone (tag : SeastarServerTag) (s : Status)
  | WorkerCall (method : SeastarWorkerServiceMethod) (tag : SeastarServerTag)
  deriving DecidableEq, Repr

/-- Is the event a task handed to the worker pool? -/
def ServiceEvent.isSchedule : ServiceEvent → Bool
  | .Schedule _ => true
  | _ => false

/-- Is the event a completion of the call? -/
def ServiceEvent.isProcessDone : ServiceEvent → Bool
  | .ProcessDone _ _ => true
  | _ => false

/-- Is the event a call of a worker method? -/
def ServiceEvent.isWorkerCall : ServiceEvent → Bool
  | .WorkerCall _ _ => true
  | _ => false

/-- `SeastarWorkerService::Schedule`. -/
def SeastarWorkerService.Schedule (f : PoolTask) : List ServiceEvent :=
  [ServiceEvent.Schedule f]

/-- `SeastarWorkerService::RunGraphHandler`. -/
def SeastarWorkerService.RunGraphHandler (env : ServiceEnv) (tag : SeastarServerTag) :
    List ServiceEvent :=
  let delta_micros : Int := if env.CAT_LOG_IS_ON 1 then env.NowMicros else 0
  SeastarWorkerService.Schedule (PoolTask.RunGraph tag delta_micros)

/-- `SeastarWorkerService::GetStatusHandler`. -/
def SeastarWorkerService.GetStatusHandler (_env : ServiceEnv) (tag : SeastarServerTag) :
    List ServiceEvent :=
  SeastarWorkerService.Schedule (PoolTask.GetStatus tag)

/-- `SeastarWorkerService::CreateWorkerSessionHandler`. -/
def SeastarWorkerService.CreateWorkerSessionHandler (_env : ServiceEnv)
    (tag : SeastarServerTag) : List ServiceEvent :=
  SeastarWorkerService.Schedule (PoolTask.CreateWorkerSession tag)

/-- `SeastarWorkerService::DeleteWorkerSessionHandler`. -/
def SeastarWorkerService.DeleteWorkerSessionHandler (_env : ServiceEnv)
    (tag : SeastarServerTag) : List ServiceEvent :=
  SeastarWorkerService.Schedule (PoolTask.DeleteWorkerSession tag)

/-- `SeastarWorkerService::CleanupAllHandler`. -/
def SeastarWorkerService.CleanupAllHandler (_env : ServiceEnv) (tag : SeastarServerTag) :
    List ServiceEvent :=
  SeastarWorkerService.Schedule (PoolTask.CleanupAll tag)

/-- `SeastarWorkerService::RegisterGraphHandler`. -/
def SeastarWorkerService.RegisterGraphHandler (_env : ServiceEnv) (tag : SeastarServerTag) :
    List ServiceEvent :=
  SeastarWorkerService.Schedule (PoolTask.RegisterGraph tag)

/-- `SeastarWorkerService::DeregisterGraphHandler`. -/
def SeastarWorkerService.DeregisterGraphHandler (_env : ServiceEnv)
    (tag : SeastarServerTag) : List ServiceEvent :=
  SeastarWorkerService.Schedule (PoolTask.DeregisterGraph tag)

/-- `SeastarWorkerService::CleanupGraphHandler`. -/
def SeastarWorkerService.CleanupGraphHandler (_env : ServiceEnv) (tag : SeastarServerTag) :
    List ServiceEvent :=
  SeastarWorkerService.Schedule (PoolTask.CleanupGraph tag)

/-- `SeastarWorkerService::LoggingHandler`. -/
def SeastarWorkerService.LoggingHandler (_env : ServiceEnv) (tag : SeastarServerTag) :
    List ServiceEvent :=
  SeastarWorkerService.Schedule (PoolTask.Logging tag)

/-- `SeastarWorkerService::TracingHandler`. -/
def SeastarWorkerService.TracingHandler (_env : ServiceEnv) (tag : SeastarServerTag) :
    List ServiceEvent :=
  SeastarWorkerService.Schedule (PoolTask.Tracing tag)

/-- `SeastarWorkerService::RecvBufHandler`. -/
def SeastarWorkerService.RecvBufHandler (_env : ServiceEnv) (tag : SeastarServerTag) :
    List ServiceEvent :=
  [ServiceEvent.ProcessDone tag
    (errors.Unimplemented "SeastarWorkerService::RecvBufHandler()")]

/-- `SeastarWorkerService::CompleteGroupHandler`. -/
def SeastarWorkerService.CompleteGroupHandler (_env : ServiceEnv) (tag : SeastarServerTag) :
    List ServiceEvent :=
  [ServiceEvent.ProcessDone tag
    (errors.Unimplemented "SeastarWorkerService::CompleteGroupHandler()")]

/-- `SeastarWorkerService::CompleteInstanceHandler`. -/
def SeastarWorkerService.CompleteInstanceHandler (_env : ServiceEnv)
    (tag : SeastarServerTag) : List ServiceEvent :=
  [ServiceEvent.ProcessDone tag
    (errors.Unimplemented "SeastarWorkerService::CompleteInstanceHandler()")]

/-- `SeastarWorkerService::GetStepSequenceHandler`. -/
def SeastarWorkerService.GetStepSequenceHandler (_env : ServiceEnv)
    (tag : SeastarServerTag) : List ServiceEvent :=
  [ServiceEvent.ProcessDone tag
    (errors.Unimplemented "SeastarWorkerService::GetStepSequenceHandler()")]

/-- `SeastarWorkerService::FuseRecvTensorHandlerRaw`. -/
def SeastarWorkerService.FuseRecvTensorHandlerRaw (env : ServiceEnv)
    (tag : SeastarServerTag) : List ServiceEvent :=
  let handle_start_micros : Int := if env.CAT_LOG_IS_ON 3 then env.NowMicros else 0
  SeastarWorkerService.Schedule (PoolTask.FuseRecvTensor tag handle_start_micros)

/-- `SeastarWorkerService::RecvTensorHandlerRaw`. -/
def SeastarWorkerService.RecvTensorHandlerRaw (env : ServiceEnv) (tag : SeastarServerTag) :
    List ServiceEvent :=
  let handle_start_micros : Int := if env.CAT_LOG_IS_ON 3 then env.NowMicros else 0
  SeastarWorkerService.Schedule (PoolTask.RecvTensor tag handle_start_micros)

/-- `SeastarWorkerService::GetHandler`, over the table the constructor fills. -/
def SeastarWorkerService.GetHandler :
    SeastarWorkerServiceMethod → ServiceEnv → SeastarServerTag → List ServiceEvent
  | .kRunGraph => SeastarWorkerService.RunGraphHandler
  | .kRecvTensor => SeastarWorkerService.RecvTensorHandlerRaw
  | .kGetStatus => SeastarWorkerService.GetStatusHandler
  | .kCreateWorkerSession => SeastarWorkerService.CreateWorkerSessionHandler
  | .kDeleteWorkerSession => SeastarWorkerService.DeleteWorkerSessionHandler
  | .kRegisterGraph => SeastarWorkerService.RegisterGraphHandler
  | .kDeregisterGraph => SeastarWorkerService.DeregisterGraphHandler
  | .kCleanupGraph => SeastarWorkerService.CleanupGraphHandler
  | .kCleanupAll => SeastarWorkerService.CleanupAllHandler
  | .kLogging => SeastarWorkerService.LoggingHandler
  | .kTracing => SeastarWorkerService.TracingHandler
  | .kRecvBuf => SeastarWorkerService.RecvBufHandler
  | .kCompleteGroup => SeastarWorkerService.CompleteGroupHandler
  | .kCompleteInstance => SeastarWorkerService.CompleteInstanceHandler
  | .kGetStepSequence => SeastarWorkerService.GetStepSequenceHandler
  | .kFuseRecvTensor => SeastarWorkerService.FuseRecvTensorHandlerRaw

/-- The handler trace completes the call of `tag` exactly once, with an
Unimplemented status, and does nothing else: nothing is scheduled on the
worker pool and no worker method is called. -/
def completesUnimplemented (tag : SeastarServerTag) (tr : List ServiceEvent) : Prop :=
  (∃ msg, tr = [ServiceEvent.ProcessDone tag (errors.Unimplemented msg)]) ∧
    tr.countP ServiceEvent.isProcessDone = 1 ∧
    tr.countP ServiceEvent.isSchedule = 0 ∧
    tr.countP ServiceEvent.isWorkerCall = 0

/-! ## Readings of the protocol used in the statements -/

/-- The status the preparation of one key ends with: the parse status if the
key does not parse, the status of `PrepareRecvTensor` otherwise. -/
def keyStatus (env : WorkerEnv) (key : String) : Status :=
  let p := env.ParseKey key
  if p.1.ok then (env.PrepareRecvTensor p.2).1 else p.1

/-- The source device `PrepareRecvTensor` resolves for a key. -/
def keyDevice (env : WorkerEnv) (key : String) : Device :=
  (env.PrepareRecvTensor (env.ParseKey key).2).2

/-- The test both receive paths make on a looked-up value: the source device
has GPU device info and the sender did not allocate on the host. -/
def needsDeviceCopy (src_dev : Device) (send_args : Args) : Bool :=
  src_dev.tensorflow_gpu_device_info && !send_args.alloc_attrs.on_host

/-- The trace of `st2` continues that of `st1` with events that neither
register nor clear a cancellation callback nor issue a lookup, and the call
options are the same. -/
def traceExtends {R : Type} (st1 st2 : CallState R) : Prop :=
  st2.opts = st1.opts ∧
    ∃ post, st2.trace = st1.trace ++ post ∧
      ∀ e ∈ post, e.isSetCancel = false ∧ e.isClearCancel = false ∧ e.isLookup = false

/-- The sequence `l` is `l0` with every existing slot `j` in `lo..hi-1`
replaced by `g j` of its old content. -/
def slotsMapped {α : Type} (g : Nat → α → α) (lo hi : Nat) (l0 l : List α) : Prop :=
  ∀ j, l[j]? = if lo ≤ j ∧ j < hi then l0[j]?.map (g j) else l0[j]?

/-- What the host branch of the slot loop stores in the tensor proto of slot
`j`: the serialized value when the element type cannot use memcpy, the old
content otherwise. -/
def hostProto (vals : List Tensor) (j : Nat) (old : TensorProto) : TensorProto :=
  if DataTypeCanUseMemcpy (vals.getD j default).dtype then old
  else (vals.getD j default).AsProtoTensorContent old

/-- The fused response `r` is `r0` with the slots `lo..hi-1` filled the way
the host branch of the slot loop fills them; the fields inherited from
`SeastarTensorResponse` agree up to the send start time. -/
def hostFilled (vals : List Tensor) (is_deads : List Bool) (lo hi : Nat)
    (r0 r : SeastarFuseTensorResponse) : Prop :=
  r.fuse_count = r0.fuse_count ∧
    r.toSeastarTensorResponse =
      { r0.toSeastarTensorResponse with send_start_micros := r.send_start_micros } ∧
    slotsMapped (fun j _ => vals.getD j default) lo hi r0.tensors r.tensors ∧
    slotsMapped (fun j _ => is_deads.getD j default) lo hi r0.is_deads r.is_deads ∧
    slotsMapped (hostProto vals) lo hi r0.tensor_protos r.tensor_protos

/-- The number of indices among `idx .. idx + n - 1` at which `p` holds. -/
def countSlots (p : Nat → Bool) : Nat → Nat → Nat
  | 0, _ => 0
  | n + 1, idx => (if p idx then 1 else 0) + countSlots p n (idx + 1)

/-- Does the `Tensor` member hold something else than `Tensor()`? -/
def tensorPopulated (t : Tensor) : Bool := decide (t ≠ Tensor.empty)

/-- Does the `TensorProto` member hold something else than `TensorProto()`? -/
def protoPopulated (p : TensorProto) : Bool := decide (p ≠ TensorProto.empty)

/-- The data model's sentence "exactly one of the two is populated per
response", read on the two members of a response. -/
def spec_exactlyOnePopulated (t : Tensor) (p : TensorProto) : Bool :=
  xor (tensorPopulated t) (protoPopulated p)

/-! ## Sample collaborators and inputs -/

/-- A parser that rejects exactly the empty key. -/
def sampleParseKey (key : String) : Status × ParsedKey :=
  if key.length = 0 then (⟨Code.INVALID_ARGUMENT, "Invalid rendezvous key"⟩, default)
  else (Status.OK, ⟨key, "/job:worker/replica:0/task:0/device:CPU:0"⟩)

/-- An environment whose source devices are CPU devices. -/
def cpuEnv : WorkerEnv :=
  { ParseKey := sampleParseKey
    PrepareRecvTensor := fun parsed => (Status.OK, ⟨parsed.src_device, "CPU", false⟩) }

/-- An environment whose source devices are GPU devices. -/
def gpuEnv : WorkerEnv :=
  { ParseKey := sampleParseKey
    PrepareRecvTensor := fun parsed => (Status.OK, ⟨parsed.src_device, "GPU", true⟩) }

/-- Call options with no cancellation callback registered. -/
def sampleOpts : CallOptions := ⟨none, 0⟩

/-- Rendezvous arguments of a sender that allocated on the host. -/
def hostArgs : Args := ⟨false, ⟨true, false⟩, 0⟩

/-- Rendezvous arguments of a sender that allocated in device memory. -/
def deviceArgs : Args := ⟨true, ⟨false, false⟩, 0⟩

/-- A float tensor with one element. -/
def floatTensor : Tensor := ⟨DataType.DT_FLOAT, [1], [0, 0, 128, 63]⟩

/-- A string tensor with one element. -/
def stringTensor : Tensor := ⟨DataType.DT_STRING, [1], [1, 97]⟩

/-- A recv-tensor request for key `K` under step 7. -/
def sampleRecvRequest : RecvTensorRequest := ⟨7, "K", 0⟩

/-- A successful lookup of a host-resident string value. -/
def sampleStringLookup : RecvLocalResult :=
  ⟨Status.OK, hostArgs, hostArgs, stringTensor, false⟩

/-- A successful lookup of a host-resident float value. -/
def sampleFloatLookup : RecvLocalResult :=
  ⟨Status.OK, hostArgs, hostArgs, floatTensor, false⟩

/-- A device-to-host copy that is never issued in the samples on a CPU. -/
def sampleCopy : CopyResult := ⟨Status.OK, []⟩

/-- A fused request for the keys `K` and `K2` under step 7. -/
def sampleFuseRequest : FuseRecvTensorRequest := ⟨7, ["K", "K2"], 0⟩

/-- A successful batched lookup: a float value, and a string value flagged
dead. -/
def sampleFuseLookup : FuseRecvLocalResult :=
  ⟨Status.OK, [hostArgs, hostArgs], hostArgs, [floatTensor, stringTensor], [false, true]⟩

/-! ## Theorems: the trace vocabulary -/

theorem doneCount_append {R : Type} (a b : List (Event R)) :
    doneCount (a ++ b) = doneCount a + doneCount b := by
  simp [doneCount]

/-! ## Theorems: `RecvTensorAsync` -/

/-- C5: when the rendezvous key of a recv-tensor request fails to parse, the
parse status is handed to the completion callback (once, on the untouched
response), no lookup is issued, no cancellation callback is registered, and
no continuation is left pending. -/
theorem RecvTensorAsync_parse_failure (env : WorkerEnv) (now : Int) (opts : CallOptions)
    (request : RecvTensorRequest) (response : SeastarTensorResponse)
    (lookup : RecvLocalResult) (copy : CopyResult)
    (h : (env.ParseKey request.rendezvous_key).1.ok = false) :
    doneCalls (RecvTensorAsync_run env now opts request response lookup copy).trace
        = [((env.ParseKey request.rendezvous_key).1, response)] ∧
      (∀ e ∈ (RecvTensorAsync_run env now opts request response lookup copy).trace,
        e.isLookup = false ∧ e.isSetCancel = false) ∧
      (RecvTensorAsync_run env now opts request response lookup copy).opts = opts ∧
      (RecvTensorAsync env (CallState.init opts response) request).2 = none := by
  simp [RecvTensorAsync_run, RecvTensorAsync, h, CallState.init, CallState.emit,
    CallState.done, CallState.abort, doneCalls, Event.isLookup, Event.isSetCancel]

/-- C4: a recv-tensor call whose key parses, whose device resolves and whose
lookup succeeds with a host-accessible value `val` and flag `is_dead` invokes
the completion callback exactly once, with an OK status, on a response whose
tensor is `val` and whose is-dead flag is `is_dead`. -/
theorem RecvTensorAsync_host_value (env : WorkerEnv) (now : Int) (opts : CallOptions)
    (request : RecvTensorRequest) (response : SeastarTensorResponse)
    (lookup : RecvLocalResult) (copy : CopyResult)
    (hparse : (env.ParseKey request.rendezvous_key).1.ok = true)
    (hdev : (env.PrepareRecvTensor (env.ParseKey request.rendezvous_key).2).1.ok = true)
    (hok : lookup.status.ok = true)
    (hhost : (keyDevice env request.rendezvous_key).tensorflow_gpu_device_info = false ∨
      lookup.send_args.alloc_attrs.on_host = true) :
    ∃ r : SeastarTensorResponse,
      doneCalls (RecvTensorAsync_run env now opts request response lookup copy).trace
          = [(Status.OK, r)] ∧
        r.tensor = lookup.val ∧ r.is_dead = lookup.is_dead ∧
        (RecvTensorAsync_run env now opts request response lookup copy).response = r := by
  have hcopy : ((env.PrepareRecvTensor (env.ParseKey request.rendezvous_key).2).2.tensorflow_gpu_device_info
      && !lookup.send_args.alloc_attrs.on_host) = false := by
    rcases hhost with h | h
    · simp [keyDevice] at h; simp [h]
    · simp [h]
  by_cases hm : DataTypeCanUseMemcpy lookup.val.dtype = true
  · simp [RecvTensorAsync_run, RecvTensorAsync, RecvLocalAsync_callback, hparse, hdev, hok,
      hcopy, hm, CallState.init, CallState.emit, CallState.done, CallState.SetCancelCallback,
      CallState.ClearCancelCallback, doneCalls, SeastarTensorResponse.SetTensor,
      SeastarTensorResponse.SetIsDead, SeastarTensorResponse.set_send_start_micros]
  · simp [RecvTensorAsync_run, RecvTensorAsync, RecvLocalAsync_callback, hparse, hdev, hok,
      hcopy, hm, CallState.init, CallState.emit, CallState.done, CallState.SetCancelCallback,
      CallState.ClearCancelCallback, doneCalls, SeastarTensorResponse.SetTensor,
      SeastarTensorResponse.SetIsDead, SeastarTensorResponse.set_send_start_micros]

/-- C4, at a sample input: a float tensor published on a CPU device. -/
theorem RecvTensorAsync_host_value_witness :
    ∃ r : SeastarTensorResponse,
      doneCalls (RecvTensorAsync_run cpuEnv 5 sampleOpts ⟨7, "K", 0⟩
          SeastarTensorResponse.fresh ⟨Status.OK, hostArgs, hostArgs, floatTensor, false⟩
          ⟨Status.OK, []⟩).trace = [(Status.OK, r)] ∧
        r.tensor = floatTensor ∧ r.is_dead = false ∧
        (RecvTensorAsync_run cpuEnv 5 sampleOpts ⟨7, "K", 0⟩
          SeastarTensorResponse.fresh ⟨Status.OK, hostArgs, hostArgs, floatTensor, false⟩
          ⟨Status.OK, []⟩).response = r :=
  RecvTensorAsync_host_value cpuEnv 5 sampleOpts ⟨7, "K", 0⟩ SeastarTensorResponse.fresh
    ⟨Status.OK, hostArgs, hostArgs, floatTensor, false⟩ ⟨Status.OK, []⟩
    (by decide) (by decide) (by decide) (Or.inl (by decide))

/-- C5, at a sample input: the empty key does not parse. -/
theorem RecvTensorAsync_parse_failure_witness :
    doneCalls (RecvTensorAsync_run cpuEnv 5 sampleOpts ⟨7, "", 0⟩
        SeastarTensorResponse.fresh ⟨Status.OK, hostArgs, hostArgs, floatTensor, false⟩
        ⟨Status.OK, []⟩).trace
        = [((cpuEnv.ParseKey (RecvTensorRequest.mk 7 "" 0).rendezvous_key).1,
            SeastarTensorResponse.fresh)] ∧
      (∀ e ∈ (RecvTensorAsync_run cpuEnv 5 sampleOpts ⟨7, "", 0⟩
        SeastarTensorResponse.fresh ⟨Status.OK, hostArgs, hostArgs, floatTensor, false⟩
        ⟨Status.OK, []⟩).trace, e.isLookup = false ∧ e.isSetCancel = false) ∧
      (RecvTensorAsync_run cpuEnv 5 sampleOpts ⟨7, "", 0⟩
        SeastarTensorResponse.fresh ⟨Status.OK, hostArgs, hostArgs, floatTensor, false⟩
        ⟨Status.OK, []⟩).opts = sampleOpts ∧
      (RecvTensorAsync cpuEnv (CallState.init sampleOpts SeastarTensorResponse.fresh)
        ⟨7, "", 0⟩).2 = none :=
  RecvTensorAsync_parse_failure cpuEnv 5 sampleOpts ⟨7, "", 0⟩ SeastarTensorResponse.fresh
    ⟨Status.OK, hostArgs, hostArgs, floatTensor, false⟩ ⟨Status.OK, []⟩ (by decide)

/-- C2, refuted as stated: a GPU-resident value whose device-to-host copy
reports a failure. The copy callback is invoked once, its `CHECK` fails, and
the completion callback is never invoked. -/
theorem RecvTensorAsync_copy_failure_never_done :
    (gpuEnv.ParseKey "K").1.ok = true ∧
      (gpuEnv.PrepareRecvTensor (gpuEnv.ParseKey "K").2).1.ok = true ∧
      doneCount (RecvTensorAsync_run gpuEnv 5 sampleOpts ⟨7, "K", 0⟩
        SeastarTensorResponse.fresh ⟨Status.OK, deviceArgs, hostArgs, floatTensor, false⟩
        ⟨⟨Code.INTERNAL, "copy failed"⟩, []⟩).trace = 0 ∧
      (RecvTensorAsync_run gpuEnv 5 sampleOpts ⟨7, "K", 0⟩
        SeastarTensorResponse.fresh ⟨Status.OK, deviceArgs, hostArgs, floatTensor, false⟩
        ⟨⟨Code.INTERNAL, "copy failed"⟩, []⟩).terminated = true := by
  decide

/-- C2, amended: a recv-tensor call invokes the completion callback exactly
once on every path, provided that on the device-to-host copy path both
`CHECK`s hold: the sender's device context is present and the copy reports
OK. -/
theorem RecvTensorAsync_done_exactly_once (env : WorkerEnv) (now : Int)
    (opts : CallOptions) (request : RecvTensorRequest) (response : SeastarTensorResponse)
    (lookup : RecvLocalResult) (copy : CopyResult)
    (hcheck : (keyStatus env request.rendezvous_key).ok = true → lookup.status.ok = true →
      needsDeviceCopy (keyDevice env request.rendezvous_key) lookup.send_args = true →
      lookup.send_args.device_context = true ∧ copy.status.ok = true) :
    doneCount (RecvTensorAsync_run env now opts request response lookup copy).trace = 1 := by
  simp only [keyStatus, keyDevice, needsDeviceCopy] at hcheck
  cases hp : (env.ParseKey request.rendezvous_key).1.ok
  · simp [RecvTensorAsync_run, RecvTensorAsync, hp, CallState.init, CallState.emit,
      CallState.done, CallState.abort, doneCount, Event.isDone]
  cases hd : (env.PrepareRecvTensor (env.ParseKey request.rendezvous_key).2).1.ok
  · simp [RecvTensorAsync_run, RecvTensorAsync, hp, hd, CallState.init, CallState.emit,
      CallState.done, CallState.abort, doneCount, Event.isDone]
  cases hl : lookup.status.ok
  · simp [RecvTensorAsync_run, RecvTensorAsync, RecvLocalAsync_callback, hp, hd, hl,
      CallState.init, CallState.emit, CallState.done, CallState.SetCancelCallback,
      CallState.ClearCancelCallback, doneCount, Event.isDone]
  cases hg : ((env.PrepareRecvTensor (env.ParseKey request.rendezvous_key).2).2.tensorflow_gpu_device_info
      && !lookup.send_args.alloc_attrs.on_host)
  · by_cases hm : DataTypeCanUseMemcpy lookup.val.dtype = true <;>
    simp [RecvTensorAsync_run, RecvTensorAsync, RecvLocalAsync_callback, hp, hd, hl, hg, hm,
      CallState.init, CallState.emit, CallState.done, CallState.SetCancelCallback,
      CallState.ClearCancelCallback, doneCount, Event.isDone]
  · simp only [hp, hd, hl, hg, if_true, forall_true_left] at hcheck
    obtain ⟨hc1, hc2⟩ := hcheck
    simp [RecvTensorAsync_run, RecvTensorAsync, RecvLocalAsync_callback,
      CopyDeviceTensorToCPU_callback, hp, hd, hl, hg, hc1, hc2,
      CallState.init, CallState.emit, CallState.done, CallState.SetCancelCallback,
      CallState.ClearCancelCallback, doneCount, Event.isDone]

/-- C2 amended, at a sample input: a GPU-resident value whose copy succeeds. -/
theorem RecvTensorAsync_done_exactly_once_witness :
    doneCount (RecvTensorAsync_run gpuEnv 5 sampleOpts ⟨7, "K", 0⟩
      SeastarTensorResponse.fresh ⟨Status.OK, deviceArgs, hostArgs, floatTensor, false⟩
      ⟨Status.OK, [0, 0, 128, 63]⟩).trace = 1 :=
  RecvTensorAsync_done_exactly_once gpuEnv 5 sampleOpts ⟨7, "K", 0⟩
    SeastarTensorResponse.fresh ⟨Status.OK, deviceArgs, hostArgs, floatTensor, false⟩
    ⟨Status.OK, [0, 0, 128, 63]⟩ (fun _ _ _ => ⟨by decide, by decide⟩)

/-! ## Theorems: the key loop of `FuseRecvTensorAsync` -/

/-- Reading back the element just stored. -/
theorem getD_set_self {α : Type} (l : List α) (i : Nat) (a d : α) (h : i < l.length) :
    (l.set i a).getD i d = a := by
  simp [h]

/-- What one iteration of the key loop computes as its status and device. -/
theorem keyLoop_step_eq (env : WorkerEnv) (key : String) (pk : List ParsedKey)
    (sd : List Device) (idx : Nat) (h : idx < pk.length) :
    (if (env.ParseKey key).1.ok = true then
        env.PrepareRecvTensor ((pk.set idx (env.ParseKey key).2).getD idx default)
      else ((env.ParseKey key).1, sd.getD idx default)).1 = keyStatus env key := by
  rw [getD_set_self _ _ _ _ h]
  unfold keyStatus
  by_cases hp : (env.ParseKey key).1.ok = true <;> simp [hp]

/-- The key loop stops at the first key whose preparation fails. -/
theorem FuseRecvTensorAsync.keyLoop_fail (env : WorkerEnv) (request : FuseRecvTensorRequest)
    (st : CallState SeastarFuseTensorResponse) :
    ∀ (n idx : Nat) (pk : List ParsedKey) (sd : List Device) (i : Nat),
      idx + n ≤ pk.length → idx ≤ i → i < idx + n →
      (∀ j, idx ≤ j → j < i →
        (keyStatus env (request.rendezvous_key.getD j "")).ok = true) →
      (keyStatus env (request.rendezvous_key.getD i "")).ok = false →
      FuseRecvTensorAsync.keyLoop env request st n idx pk sd =
        (((st.emit (Event.LogWarning ("PrepareRecvTensor failed, tensor:" ++
              request.rendezvous_key.getD i ""))).emit Event.delete_src_devs).done
            (keyStatus env (request.rendezvous_key.getD i "")), none) := by
  intro n
  induction n with
  | zero => intro idx pk sd i _ h1 h2; omega
  | succ n ih =>
    intro idx pk sd i hlen h1 h2 hok hbad
    have hidx : idx < pk.length := by omega
    have hs := keyLoop_step_eq env (request.rendezvous_key.getD idx "") pk sd idx hidx
    rw [FuseRecvTensorAsync.keyLoop]
    simp only [hs]
    by_cases hi : i = idx
    · subst hi
      simp [-List.getD_eq_getElem?_getD, hbad]
    · have hidx_ok := hok idx (le_refl _) (by omega)
      simp only [hidx_ok, Bool.not_true, Bool.false_eq_true, if_false]
      exact ih (idx + 1) _ _ i (by simp; omega) (by omega) (by omega)
        (fun j hj1 hj2 => hok j (by omega) hj2) hbad

/-- The key loop, when every remaining key is prepared successfully, leaves
the call state alone and has resolved the device of every remaining key. -/
theorem FuseRecvTensorAsync.keyLoop_ok (env : WorkerEnv) (request : FuseRecvTensorRequest)
    (st : CallState SeastarFuseTensorResponse) :
    ∀ (n idx : Nat) (pk : List ParsedKey) (sd : List Device),
      idx + n ≤ pk.length → idx + n ≤ sd.length →
      (∀ j, idx ≤ j → j < idx + n →
        (keyStatus env (request.rendezvous_key.getD j "")).ok = true) →
      ∃ pk' sd', FuseRecvTensorAsync.keyLoop env request st n idx pk sd =
          (st, some (pk', sd')) ∧
        ∀ j, sd'[j]? = if idx ≤ j ∧ j < idx + n then
            some (keyDevice env (request.rendezvous_key.getD j "")) else sd[j]? := by
  intro n
  induction n with
  | zero =>
    intro idx pk sd _ _ _
    refine ⟨pk, sd, by simp [FuseRecvTensorAsync.keyLoop], ?_⟩
    intro j
    have : ¬ (idx ≤ j ∧ j < idx + 0) := by omega
    rw [if_neg this]
  | succ n ih =>
    intro idx pk sd hlen hlen2 hok
    have hidx : idx < pk.length := by omega
    have hs := keyLoop_step_eq env (request.rendezvous_key.getD idx "") pk sd idx hidx
    have hidx_ok := hok idx (le_refl _) (by omega)
    have hp : (env.ParseKey (request.rendezvous_key.getD idx "")).1.ok = true := by
      by_contra hc
      simp only [keyStatus] at hidx_ok
      simp only [hc] at hidx_ok
      simp at hidx_ok
      simp [hidx_ok] at hc
    rw [FuseRecvTensorAsync.keyLoop]
    simp only [hs, hidx_ok, Bool.not_true, Bool.false_eq_true, if_false]
    obtain ⟨pk', sd', heq, hsd⟩ := ih (idx + 1) (pk.set idx (env.ParseKey (request.rendezvous_key.getD idx "")).2)
      (sd.set idx (if (env.ParseKey (request.rendezvous_key.getD idx "")).1.ok = true then
        env.PrepareRecvTensor ((pk.set idx (env.ParseKey (request.rendezvous_key.getD idx "")).2).getD idx default)
      else ((env.ParseKey (request.rendezvous_key.getD idx "")).1, sd.getD idx default)).2)
      (by simp; omega) (by simp; omega) (fun j hj1 hj2 => hok j (by omega) (by omega))
    refine ⟨pk', sd', heq, ?_⟩
    intro j
    rw [hsd j]
    by_cases hj : j = idx
    · subst hj
      have h1 : ¬ (j + 1 ≤ j ∧ j < j + 1 + n) := by omega
      have h2 : (j ≤ j ∧ j < j + (n + 1)) := by omega
      have h3 : j < sd.length := by omega
      simp only [h1, h2, if_false, if_true]
      simp [-List.getD_eq_getElem?_getD, hp, h3, keyDevice, getD_set_self _ _ _ _ hidx]
    · have hne : idx ≠ j := fun h => hj h.symm
      rw [List.getElem?_set_ne hne]
      have : (idx + 1 ≤ j ∧ j < idx + 1 + n) ↔ (idx ≤ j ∧ j < idx + (n + 1)) := by omega
      simp only [this]

/-! ## Theorems: `FuseRecvTensorAsync`, failures before the lookup -/

/-- C6: when some key of a fused-recv-tensor request fails to parse or its
source device fails to resolve, and `i` is the lowest index of such a key,
the completion callback is invoked exactly once, with the failure status of
key `i` and on the unmodified response; no lookup is issued, no cancellation
callback is registered, and no continuation is left pending. -/
theorem FuseRecvTensorAsync_key_failure (env : WorkerEnv) (now : Int) (opts : CallOptions)
    (request : FuseRecvTensorRequest) (response : SeastarFuseTensorResponse)
    (lookup : FuseRecvLocalResult) (i : Nat)
    (hi : i < request.rendezvous_key_size)
    (hbefore : ∀ j, j < i → (keyStatus env (request.rendezvous_key.getD j "")).ok = true)
    (hfail : (keyStatus env (request.rendezvous_key.getD i "")).ok = false) :
    doneCalls (FuseRecvTensorAsync_run env now opts request response lookup).trace
        = [(keyStatus env (request.rendezvous_key.getD i ""), response)] ∧
      (∀ e ∈ (FuseRecvTensorAsync_run env now opts request response lookup).trace,
        e.isLookup = false ∧ e.isSetCancel = false) ∧
      (FuseRecvTensorAsync_run env now opts request response lookup).response = response ∧
      (FuseRecvTensorAsync_run env now opts request response lookup).opts = opts ∧
      (FuseRecvTensorAsync env (CallState.init opts response) request).2 = none := by
  have hloop := FuseRecvTensorAsync.keyLoop_fail env request (CallState.init opts response)
    request.rendezvous_key_size 0 (List.replicate request.rendezvous_key_size default)
    (List.replicate request.rendezvous_key_size default) i (by simp) (Nat.zero_le _)
    (by omega) (fun j _ hj => hbefore j hj) hfail
  simp only [FuseRecvTensorAsync_run, FuseRecvTensorAsync, hloop]
  simp [CallState.init, CallState.emit, CallState.done, doneCalls, Event.isLookup,
    Event.isSetCancel]

/-- C6, at a sample input: of three keys the second and the third do not
parse; the second one's status is reported. -/
theorem FuseRecvTensorAsync_key_failure_witness :
    doneCalls (FuseRecvTensorAsync_run cpuEnv 5 sampleOpts ⟨7, ["K", "", ""], 0⟩
        SeastarFuseTensorResponse.fresh ⟨Status.OK, [], hostArgs, [], []⟩).trace
        = [(keyStatus cpuEnv
              ((FuseRecvTensorRequest.mk 7 ["K", "", ""] 0).rendezvous_key.getD 1 ""),
            SeastarFuseTensorResponse.fresh)] ∧
      (∀ e ∈ (FuseRecvTensorAsync_run cpuEnv 5 sampleOpts ⟨7, ["K", "", ""], 0⟩
        SeastarFuseTensorResponse.fresh ⟨Status.OK, [], hostArgs, [], []⟩).trace,
        e.isLookup = false ∧ e.isSetCancel = false) ∧
      (FuseRecvTensorAsync_run cpuEnv 5 sampleOpts ⟨7, ["K", "", ""], 0⟩
        SeastarFuseTensorResponse.fresh ⟨Status.OK, [], hostArgs, [], []⟩).response
        = SeastarFuseTensorResponse.fresh ∧
      (FuseRecvTensorAsync_run cpuEnv 5 sampleOpts ⟨7, ["K", "", ""], 0⟩
        SeastarFuseTensorResponse.fresh ⟨Status.OK, [], hostArgs, [], []⟩).opts
        = sampleOpts ∧
      (FuseRecvTensorAsync cpuEnv (CallState.init sampleOpts SeastarFuseTensorResponse.fresh)
        ⟨7, ["K", "", ""], 0⟩).2 = none :=
  FuseRecvTensorAsync_key_failure cpuEnv 5 sampleOpts ⟨7, ["K", "", ""], 0⟩
    SeastarFuseTensorResponse.fresh ⟨Status.OK, [], hostArgs, [], []⟩ 1 (by decide)
    (by decide) (by decide)

/-! ## Theorems: sequences of slots -/

theorem slotsMapped_refl {α : Type} (g : Nat → α → α) (lo : Nat) (l : List α) :
    slotsMapped g lo lo l l := by
  intro j
  have : ¬ (lo ≤ j ∧ j < lo) := by omega
  rw [if_neg this]

theorem slotsMapped_trans {α : Type} (g : Nat → α → α) (lo mid hi : Nat) (l0 l1 l2 : List α)
    (h1 : lo ≤ mid) (h2 : mid ≤ hi) (h01 : slotsMapped g lo mid l0 l1)
    (h12 : slotsMapped g mid hi l1 l2) : slotsMapped g lo hi l0 l2 := by
  intro j
  rw [h12 j, h01 j]
  by_cases ha : lo ≤ j ∧ j < mid
  · have hb : ¬ (mid ≤ j ∧ j < hi) := by omega
    have hc : lo ≤ j ∧ j < hi := by omega
    rw [if_neg hb, if_pos ha, if_pos hc]
  · by_cases hb : mid ≤ j ∧ j < hi
    · have hc : lo ≤ j ∧ j < hi := by omega
      rw [if_pos hb, if_neg ha, if_pos hc]
    · have hc : ¬ (lo ≤ j ∧ j < hi) := by omega
      rw [if_neg hb, if_neg ha, if_neg hc]

theorem slotsMapped_set {α : Type} (g : Nat → α → α) (idx : Nat) (l : List α) (d : α) :
    slotsMapped g idx (idx + 1) l (l.set idx (g idx (l.getD idx d))) := by
  intro j
  by_cases hj : idx = j
  · subst hj
    have : idx ≤ idx ∧ idx < idx + 1 := by omega
    rw [if_pos this, List.getElem?_set]
    by_cases hl : idx < l.length
    · simp [hl]
    · rw [if_neg hl, List.getElem?_eq_none (by omega)]
      simp
  · have : ¬ (idx ≤ j ∧ j < idx + 1) := by omega
    rw [if_neg this, List.getElem?_set_ne hj]

theorem slotsMapped_same {α : Type} (g : Nat → α → α) (idx : Nat) (l : List α)
    (h : ∀ x, g idx x = x) : slotsMapped g idx (idx + 1) l l := by
  intro j
  by_cases hj : idx ≤ j ∧ j < idx + 1
  · have : j = idx := by omega
    subst this
    rw [if_pos hj]
    cases l[j]? <;> simp [h]
  · rw [if_neg hj]

theorem slotsMapped_length {α : Type} (g : Nat → α → α) (lo hi : Nat) (l0 l : List α)
    (h : slotsMapped g lo hi l0 l) : l.length = l0.length := by
  have hl : ∀ j : Nat, l[j]? = none ↔ l0[j]? = none := by
    intro j
    rw [h j]
    split <;> simp
  have h1 : l0.length ≤ l.length :=
    List.getElem?_eq_none_iff.mp ((hl l.length).mp (List.getElem?_eq_none (le_refl _)))
  have h2 : l.length ≤ l0.length :=
    List.getElem?_eq_none_iff.mp ((hl l0.length).mpr (List.getElem?_eq_none (le_refl _)))
  omega

theorem length_resize {α : Type} [Inhabited α] (v : List α) (n : Nat) :
    (resize v n).length = n := by
  simp [resize]
  omega

/-- A sequence of `n` slots all of which were mapped to the entries of `vals`
is `vals`. -/
theorem slotsMapped_const_eq {α : Type} [Inhabited α] (vals l0 l : List α) (n : Nat)
    (h0 : l0.length = n) (hv : vals.length = n)
    (h : slotsMapped (fun j _ => vals.getD j default) 0 n l0 l) : l = vals := by
  apply List.ext_getElem?
  intro j
  rw [h j]
  by_cases hj : j < n
  · have h1 : 0 ≤ j ∧ j < n := by omega
    rw [if_pos h1]
    have h2 : j < l0.length := by omega
    have h3 : j < vals.length := by omega
    simp [List.getElem?_eq_getElem h2, List.getElem?_eq_getElem h3]
  · have h1 : ¬ (0 ≤ j ∧ j < n) := by omega
    rw [if_neg h1]
    rw [List.getElem?_eq_none (by omega), List.getElem?_eq_none (by omega)]

/-! ## Theorems: the slot loop of the batched-lookup callback -/

theorem traceExtends_refl {R : Type} (st : CallState R) : traceExtends st st :=
  ⟨rfl, [], by simp, by simp⟩

theorem traceExtends_trans {R : Type} {a b c : CallState R} (h1 : traceExtends a b)
    (h2 : traceExtends b c) : traceExtends a c := by
  obtain ⟨ho1, p1, ht1, hp1⟩ := h1
  obtain ⟨ho2, p2, ht2, hp2⟩ := h2
  refine ⟨by rw [ho2, ho1], p1 ++ p2, by rw [ht2, ht1, List.append_assoc], ?_⟩
  intro e he
  rcases List.mem_append.mp he with h | h
  · exact hp1 e h
  · exact hp2 e h

theorem traceExtends_response {R : Type} (st : CallState R) (r : R) :
    traceExtends st { st with response := r } :=
  ⟨rfl, [], by simp, by simp⟩

theorem traceExtends_done {R : Type} (st : CallState R) (s : Status) :
    traceExtends st (st.done s) :=
  ⟨rfl, [Event.done s st.response], rfl,
    by simp [Event.isSetCancel, Event.isClearCancel, Event.isLookup]⟩

theorem traceExtends_emit {R : Type} (st : CallState R) (e : Event R)
    (h : e.isSetCancel = false ∧ e.isClearCancel = false ∧ e.isLookup = false) :
    traceExtends st (st.emit e) :=
  ⟨rfl, [e], rfl, by simpa using h⟩

/-- One iteration of the slot loop only adds completion and release events. -/
theorem FuseRecvLocalAsync_callback.slotBody_traceExtends (now : Int)
    (src_devs : List Device) (send_argses : List Args) (vals : List Tensor)
    (is_deads : List Bool) (idx : Nat) (acc : CallState SeastarFuseTensorResponse × Int) :
    traceExtends acc.1
      (FuseRecvLocalAsync_callback.slotBody now src_devs send_argses vals is_deads idx acc).1 := by
  obtain ⟨st, c⟩ := acc
  simp only [FuseRecvLocalAsync_callback.slotBody]
  split
  · exact traceExtends_trans (traceExtends_response _ _) (traceExtends_done _ _)
  · split
    · refine traceExtends_trans ?_ (traceExtends_emit _ _ ⟨rfl, rfl, rfl⟩)
      refine traceExtends_trans ?_ (traceExtends_emit _ _ ⟨rfl, rfl, rfl⟩)
      refine traceExtends_trans ?_ (traceExtends_done _ _)
      split
      · exact traceExtends_response _ _
      · exact traceExtends_response _ _
    · split
      · exact traceExtends_response _ _
      · exact traceExtends_response _ _

/-- The slot loop only adds completion and release events. -/
theorem FuseRecvLocalAsync_callback.slotLoop_traceExtends (now : Int)
    (src_devs : List Device) (send_argses : List Args) (vals : List Tensor)
    (is_deads : List Bool) :
    ∀ (n idx : Nat) (acc : CallState SeastarFuseTensorResponse × Int),
      traceExtends acc.1
        (FuseRecvLocalAsync_callback.slotLoop now src_devs send_argses vals is_deads
          n idx acc).1 := by
  intro n
  induction n with
  | zero => intro idx acc; exact traceExtends_refl _
  | succ n ih =>
    intro idx acc
    rw [FuseRecvLocalAsync_callback.slotLoop]
    exact traceExtends_trans
      (FuseRecvLocalAsync_callback.slotBody_traceExtends now src_devs send_argses vals
        is_deads idx acc) (ih (idx + 1) _)

theorem hostFilled_trans (vals : List Tensor) (is_deads : List Bool) (lo mid hi : Nat)
    (r0 r1 r2 : SeastarFuseTensorResponse) (h1 : lo ≤ mid) (h2 : mid ≤ hi)
    (h01 : hostFilled vals is_deads lo mid r0 r1)
    (h12 : hostFilled vals is_deads mid hi r1 r2) :
    hostFilled vals is_deads lo hi r0 r2 := by
  obtain ⟨a1, b1, c1, d1, e1⟩ := h01
  obtain ⟨a2, b2, c2, d2, e2⟩ := h12
  refine ⟨by rw [a2, a1], ?_, slotsMapped_trans _ lo mid hi _ _ _ h1 h2 c1 c2,
    slotsMapped_trans _ lo mid hi _ _ _ h1 h2 d1 d2,
    slotsMapped_trans _ lo mid hi _ _ _ h1 h2 e1 e2⟩
  rw [b2, b1]

theorem hostFilled_set_send_start_micros (vals : List Tensor) (is_deads : List Bool)
    (lo hi : Nat) (r0 r : SeastarFuseTensorResponse) (t : Int)
    (h : hostFilled vals is_deads lo hi r0 r) :
    hostFilled vals is_deads lo hi r0 (r.set_send_start_micros t) := by
  obtain ⟨a, b, c, d, e⟩ := h
  refine ⟨a, ?_, c, d, e⟩
  simp only [SeastarFuseTensorResponse.set_send_start_micros]
  rw [b]

/-- One iteration of the slot loop on a host-accessible value: the slot is
filled, the counter is decremented, and the response is finalized exactly
when the counter has reached zero. -/
theorem FuseRecvLocalAsync_callback.slotBody_host (now : Int) (src_devs : List Device)
    (send_argses : List Args) (vals : List Tensor) (is_deads : List Bool) (idx : Nat)
    (st : CallState SeastarFuseTensorResponse) (c : Int)
    (hhost : needsDeviceCopy (src_devs.getD idx default) (send_argses.getD idx default)
      = false) :
    ∃ r1, hostFilled vals is_deads idx (idx + 1) st.response r1 ∧
      FuseRecvLocalAsync_callback.slotBody now src_devs send_argses vals is_deads idx (st, c) =
        if c - 1 = 0 then
          ({ st with
              response := r1.set_send_start_micros now
              trace := st.trace ++
                [Event.done Status.OK (r1.set_send_start_micros now), Event.delete_src_devs,
                  Event.delete_fuse_counter] }, c - 1)
        else ({ st with response := r1 }, c - 1) := by
  simp only [needsDeviceCopy] at hhost
  by_cases hm : DataTypeCanUseMemcpy (vals.getD idx default).dtype = true
  · refine ⟨(st.response.SetIsDeadByIndex idx (is_deads.getD idx default)).SetTensorByIndex
      idx (vals.getD idx default), ⟨rfl, rfl, ?_, ?_, ?_⟩, ?_⟩
    · exact slotsMapped_set (fun j _ => vals.getD j default) idx _ default
    · exact slotsMapped_set (fun j _ => is_deads.getD j default) idx _ default
    · exact slotsMapped_same _ idx _ (fun x => by simp only [hostProto, hm, if_true])
    · simp only [FuseRecvLocalAsync_callback.slotBody, hhost, hm]
      by_cases hc : c - 1 = 0
      · simp [-List.getD_eq_getElem?_getD, hc, CallState.emit, CallState.done]
      · simp [-List.getD_eq_getElem?_getD, hc]
  · refine ⟨((st.response.SetIsDeadByIndex idx (is_deads.getD idx default)).SetTensorByIndex
      idx (vals.getD idx default)).SetTensorProtoByIndex idx
        ((vals.getD idx default).AsProtoTensorContent
          (st.response.tensor_protos.getD idx default)), ⟨rfl, rfl, ?_, ?_, ?_⟩, ?_⟩
    · exact slotsMapped_set (fun j _ => vals.getD j default) idx _ default
    · exact slotsMapped_set (fun j _ => is_deads.getD j default) idx _ default
    · have hg : hostProto vals idx (st.response.tensor_protos.getD idx default) =
          (vals.getD idx default).AsProtoTensorContent
            (st.response.tensor_protos.getD idx default) := by
        simp only [hostProto, hm]
        rfl
      have := slotsMapped_set (hostProto vals) idx st.response.tensor_protos default
      rw [hg] at this
      exact this
    · simp only [FuseRecvLocalAsync_callback.slotBody, hhost, hm]
      by_cases hc : c - 1 = 0
      · simp [-List.getD_eq_getElem?_getD, hc, CallState.emit, CallState.done,
          SeastarFuseTensorResponse.GetTensorProtoByIndex,
          SeastarFuseTensorResponse.SetTensorByIndex,
          SeastarFuseTensorResponse.SetIsDeadByIndex]
      · simp [-List.getD_eq_getElem?_getD, hc,
          SeastarFuseTensorResponse.GetTensorProtoByIndex,
          SeastarFuseTensorResponse.SetTensorByIndex,
          SeastarFuseTensorResponse.SetIsDeadByIndex]

/-- The slot loop over `n + 1` host-accessible values, entered with the
counter at `n + 1`: every slot of the range is filled, and the completion
callback is invoked once, with OK, after the last slot has been filled. -/
theorem FuseRecvLocalAsync_callback.slotLoop_host (now : Int) (src_devs : List Device)
    (send_argses : List Args) (vals : List Tensor) (is_deads : List Bool) :
    ∀ (n idx : Nat) (st : CallState SeastarFuseTensorResponse),
      (∀ j, idx ≤ j → j < idx + (n + 1) →
        needsDeviceCopy (src_devs.getD j default) (send_argses.getD j default) = false) →
      ∃ r, hostFilled vals is_deads idx (idx + (n + 1)) st.response r ∧
        r.send_start_micros = now ∧
        FuseRecvLocalAsync_callback.slotLoop now src_devs send_argses vals is_deads
            (n + 1) idx (st, ((n + 1 : Nat) : Int)) =
          ({ st with
              response := r
              trace := st.trace ++
                [Event.done Status.OK r, Event.delete_src_devs,
                  Event.delete_fuse_counter] }, 0) := by
  intro n
  induction n with
  | zero =>
    intro idx st hhost
    obtain ⟨r1, hf, hb⟩ := FuseRecvLocalAsync_callback.slotBody_host now src_devs
      send_argses vals is_deads idx st ((0 + 1 : Nat) : Int)
      (hhost idx (le_refl _) (by omega))
    refine ⟨r1.set_send_start_micros now,
      hostFilled_set_send_start_micros _ _ _ _ _ _ _ hf, rfl, ?_⟩
    rw [FuseRecvLocalAsync_callback.slotLoop, hb]
    simp [FuseRecvLocalAsync_callback.slotLoop]
  | succ n ih =>
    intro idx st hhost
    obtain ⟨r1, hf, hb⟩ := FuseRecvLocalAsync_callback.slotBody_host now src_devs
      send_argses vals is_deads idx st ((n + 1 + 1 : Nat) : Int)
      (hhost idx (le_refl _) (by omega))
    have hc : ¬ (((n + 1 + 1 : Nat) : Int) - 1 = 0) := by push_cast; omega
    have hc' : ((n + 1 + 1 : Nat) : Int) - 1 = ((n + 1 : Nat) : Int) := by push_cast; omega
    rw [if_neg hc, hc'] at hb
    obtain ⟨r, hfr, hss, hl⟩ := ih (idx + 1) { st with response := r1 }
      (fun j hj1 hj2 => hhost j (by omega) (by omega))
    refine ⟨r, ?_, hss, ?_⟩
    · have := hostFilled_trans vals is_deads idx (idx + 1) (idx + 1 + (n + 1)) _ _ _
        (by omega) (by omega) hf hfr
      have he : idx + 1 + (n + 1) = idx + (n + 1 + 1) := by omega
      rw [he] at this
      exact this
    · rw [FuseRecvLocalAsync_callback.slotLoop, hb, hl]

/-! ## Theorems: `FuseRecvTensorAsync`, successful lookups -/

/-- The whole fused call when every key is prepared, the lookup succeeds, there
is at least one key and every value is host-accessible. -/
theorem FuseRecvTensorAsync_run_host (env : WorkerEnv) (now : Int) (opts : CallOptions)
    (request : FuseRecvTensorRequest) (response : SeastarFuseTensorResponse)
    (lookup : FuseRecvLocalResult)
    (hkeys : ∀ j, j < request.rendezvous_key_size →
      (keyStatus env (request.rendezvous_key.getD j "")).ok = true)
    (hok : lookup.status.ok = true)
    (hpos : 0 < request.rendezvous_key_size)
    (hhost : ∀ j, j < request.rendezvous_key_size →
      needsDeviceCopy (keyDevice env (request.rendezvous_key.getD j ""))
        (lookup.send_argses.getD j default) = false) :
    ∃ pk r,
      hostFilled lookup.vals lookup.is_deads 0 request.rendezvous_key_size
        (response.Init request.rendezvous_key_size) r ∧
      r.send_start_micros = now ∧
      FuseRecvTensorAsync_run env now opts request response lookup =
        { opts := opts.ClearCancelCallback
          response := r
          trace := [Event.SetCancelCallback
              (CancelCallback.logFuseRecvTensorCancelled request.step_id),
            Event.FuseRecvLocalAsync request.step_id pk, Event.ClearCancelCallback,
            Event.done Status.OK r, Event.delete_src_devs, Event.delete_fuse_counter]
          terminated := false } := by
  obtain ⟨pk, sd, hloop, hsd⟩ := FuseRecvTensorAsync.keyLoop_ok env request
    (CallState.init opts response) request.rendezvous_key_size 0
    (List.replicate request.rendezvous_key_size default)
    (List.replicate request.rendezvous_key_size default) (by simp) (by simp)
    (fun j _ hj => hkeys j (by omega))
  have hdev : ∀ j, j < request.rendezvous_key_size →
      sd.getD j default = keyDevice env (request.rendezvous_key.getD j "") := by
    intro j hj
    have h1 : 0 ≤ j ∧ j < 0 + request.rendezvous_key_size := by omega
    rw [List.getD_eq_getElem?_getD, hsd j, if_pos h1]
    rfl
  obtain ⟨m, hm⟩ : ∃ m, request.rendezvous_key_size = m + 1 := ⟨_, (Nat.succ_pred_eq_of_pos hpos).symm⟩
  obtain ⟨r, hf, hss, hl⟩ := FuseRecvLocalAsync_callback.slotLoop_host now sd
    lookup.send_argses lookup.vals lookup.is_deads m 0
    { opts := opts.ClearCancelCallback
      response := response.Init request.rendezvous_key_size
      trace := [Event.SetCancelCallback
          (CancelCallback.logFuseRecvTensorCancelled request.step_id),
        Event.FuseRecvLocalAsync request.step_id pk, Event.ClearCancelCallback]
      terminated := false }
    (fun j _ hj => by
      have hj' : j < request.rendezvous_key_size := by omega
      rw [hdev j hj']
      exact hhost j hj')
  refine ⟨pk, r, ?_, hss, ?_⟩
  · have he : 0 + (m + 1) = request.rendezvous_key_size := by omega
    rw [he] at hf
    exact hf
  · simp only [FuseRecvTensorAsync_run, FuseRecvTensorAsync, hloop,
      FuseRecvLocalAsync_callback, hok, if_true]
    simp only [CallState.init, CallState.SetCancelCallback, CallState.emit,
      CallState.ClearCancelCallback, CallOptions.SetCancelCallback,
      CallOptions.ClearCancelCallback, List.nil_append, List.cons_append] at hl ⊢
    rw [hm]
    rw [hm] at hl
    rw [hl]

/-- C3: in a fused-recv-tensor call whose keys are all prepared and whose
batched lookup succeeds with host-accessible values `vals` and flags
`is_deads`, one per key, every OK invocation of the completion callback sees
a response of exactly N slots holding `vals` and `is_deads` in request
order; and with at least one key there is exactly one invocation, which is
such an OK one. -/
theorem FuseRecvTensorAsync_host_values (env : WorkerEnv) (now : Int) (opts : CallOptions)
    (request : FuseRecvTensorRequest) (response : SeastarFuseTensorResponse)
    (lookup : FuseRecvLocalResult)
    (hkeys : ∀ j, j < request.rendezvous_key_size →
      (keyStatus env (request.rendezvous_key.getD j "")).ok = true)
    (hok : lookup.status.ok = true)
    (hvals : lookup.vals.length = request.rendezvous_key_size)
    (hdeads : lookup.is_deads.length = request.rendezvous_key_size)
    (hhost : ∀ j, j < request.rendezvous_key_size →
      needsDeviceCopy (keyDevice env (request.rendezvous_key.getD j ""))
        (lookup.send_argses.getD j default) = false) :
    (∀ sr ∈ doneCalls (FuseRecvTensorAsync_run env now opts request response lookup).trace,
        sr.1.ok = true →
          sr.2.fuse_count = request.rendezvous_key_size ∧
          sr.2.tensor_protos.length = request.rendezvous_key_size ∧
          sr.2.tensors = lookup.vals ∧ sr.2.is_deads = lookup.is_deads) ∧
      (0 < request.rendezvous_key_size →
        ∃ r, doneCalls (FuseRecvTensorAsync_run env now opts request response lookup).trace
            = [(Status.OK, r)] ∧
          (FuseRecvTensorAsync_run env now opts request response lookup).response = r) := by
  rcases Nat.eq_zero_or_pos request.rendezvous_key_size with h0 | hpos
  · have hloop : FuseRecvTensorAsync.keyLoop env request (CallState.init opts response)
        0 0 [] [] = (CallState.init opts response, some ([], [])) := rfl
    refine ⟨?_, fun h => absurd h (by omega)⟩
    simp [FuseRecvTensorAsync_run, FuseRecvTensorAsync, FuseRecvLocalAsync_callback, h0,
      hloop, hok, FuseRecvLocalAsync_callback.slotLoop, CallState.init, CallState.emit,
      CallState.SetCancelCallback, CallState.ClearCancelCallback, doneCalls]
  · obtain ⟨pk, r, hf, _, hrun⟩ := FuseRecvTensorAsync_run_host env now opts request
      response lookup hkeys hok hpos hhost
    obtain ⟨hcount, _, htens, hdead, hproto⟩ := hf
    have hr : r.fuse_count = request.rendezvous_key_size ∧
        r.tensor_protos.length = request.rendezvous_key_size ∧
        r.tensors = lookup.vals ∧ r.is_deads = lookup.is_deads := by
      refine ⟨by rw [hcount]; rfl, ?_, ?_, ?_⟩
      · rw [slotsMapped_length _ _ _ _ _ hproto]
        simp [SeastarFuseTensorResponse.Init, length_resize]
      · exact slotsMapped_const_eq _ _ _ request.rendezvous_key_size
          (by simp [SeastarFuseTensorResponse.Init, length_resize]) hvals htens
      · exact slotsMapped_const_eq _ _ _ request.rendezvous_key_size
          (by simp [SeastarFuseTensorResponse.Init, length_resize]) hdeads hdead
    rw [hrun]
    refine ⟨?_, fun _ => ⟨r, by simp [doneCalls], rfl⟩⟩
    intro sr hsr _
    simp [doneCalls] at hsr
    rw [hsr]
    exact hr

/-- C3, at a sample input: two keys, a float value and a dead string slot. -/
theorem FuseRecvTensorAsync_host_values_witness :
    (∀ sr ∈ doneCalls (FuseRecvTensorAsync_run cpuEnv 5 sampleOpts ⟨7, ["K", "K2"], 0⟩
          SeastarFuseTensorResponse.fresh
          ⟨Status.OK, [hostArgs, hostArgs], hostArgs, [floatTensor, Tensor.empty],
            [false, true]⟩).trace,
        sr.1.ok = true →
          sr.2.fuse_count = (FuseRecvTensorRequest.mk 7 ["K", "K2"] 0).rendezvous_key_size ∧
          sr.2.tensor_protos.length
            = (FuseRecvTensorRequest.mk 7 ["K", "K2"] 0).rendezvous_key_size ∧
          sr.2.tensors = [floatTensor, Tensor.empty] ∧ sr.2.is_deads = [false, true]) ∧
      (0 < (FuseRecvTensorRequest.mk 7 ["K", "K2"] 0).rendezvous_key_size →
        ∃ r, doneCalls (FuseRecvTensorAsync_run cpuEnv 5 sampleOpts ⟨7, ["K", "K2"], 0⟩
            SeastarFuseTensorResponse.fresh
            ⟨Status.OK, [hostArgs, hostArgs], hostArgs, [floatTensor, Tensor.empty],
              [false, true]⟩).trace = [(Status.OK, r)] ∧
          (FuseRecvTensorAsync_run cpuEnv 5 sampleOpts ⟨7, ["K", "K2"], 0⟩
            SeastarFuseTensorResponse.fresh
            ⟨Status.OK, [hostArgs, hostArgs], hostArgs, [floatTensor, Tensor.empty],
              [false, true]⟩).response = r) :=
  FuseRecvTensorAsync_host_values cpuEnv 5 sampleOpts ⟨7, ["K", "K2"], 0⟩
    SeastarFuseTensorResponse.fresh
    ⟨Status.OK, [hostArgs, hostArgs], hostArgs, [floatTensor, Tensor.empty], [false, true]⟩
    (by decide) (by decide) (by decide) (by decide) (by decide)

/-- C1, on the code: a fused call with two keys whose values are both
GPU-resident and not host-resident, and whose batched lookup succeeds. The
lookup callback is invoked once, yet the completion callback is invoked
twice, each time with the Internal error. -/
theorem FuseRecvTensorAsync_two_gpu_values_done_twice :
    doneCount (FuseRecvTensorAsync_run gpuEnv 5 sampleOpts ⟨7, ["K", "K2"], 0⟩
        SeastarFuseTensorResponse.fresh
        ⟨Status.OK, [deviceArgs, deviceArgs], hostArgs, [floatTensor, floatTensor],
          [false, false]⟩).trace = 2 ∧
      (doneCalls (FuseRecvTensorAsync_run gpuEnv 5 sampleOpts ⟨7, ["K", "K2"], 0⟩
        SeastarFuseTensorResponse.fresh
        ⟨Status.OK, [deviceArgs, deviceArgs], hostArgs, [floatTensor, floatTensor],
          [false, false]⟩).trace).map Prod.fst
        = [errors.Internal "No GPU device in process",
            errors.Internal "No GPU device in process"] := by
  decide

/-- C9, on the code: a fused call with zero keys whose batched lookup
succeeds registers and clears the cancellation callback, issues the lookup,
and never invokes the completion callback. -/
theorem FuseRecvTensorAsync_zero_keys_never_done (env : WorkerEnv) (now : Int)
    (opts : CallOptions) (request : FuseRecvTensorRequest)
    (response : SeastarFuseTensorResponse) (lookup : FuseRecvLocalResult)
    (hzero : request.rendezvous_key = []) (hok : lookup.status.ok = true) :
    doneCount (FuseRecvTensorAsync_run env now opts request response lookup).trace = 0 ∧
      (FuseRecvTensorAsync_run env now opts request response lookup).trace =
        [Event.SetCancelCallback (CancelCallback.logFuseRecvTensorCancelled request.step_id),
          Event.FuseRecvLocalAsync request.step_id [], Event.ClearCancelCallback] ∧
      (FuseRecvTensorAsync_run env now opts request response lookup).response.fuse_count
        = 0 := by
  simp [FuseRecvTensorAsync_run, FuseRecvTensorAsync, FuseRecvLocalAsync_callback,
    FuseRecvTensorRequest.rendezvous_key_size, hzero,
    FuseRecvTensorAsync.keyLoop, hok, FuseRecvLocalAsync_callback.slotLoop, CallState.init, CallState.emit,
    CallState.SetCancelCallback, CallState.ClearCancelCallback, doneCount, Event.isDone,
    SeastarFuseTensorResponse.Init]

/-- C9, at a sample input: the request without keys. -/
theorem FuseRecvTensorAsync_zero_keys_never_done_witness :
    doneCount (FuseRecvTensorAsync_run cpuEnv 5 sampleOpts ⟨7, [], 0⟩
        SeastarFuseTensorResponse.fresh ⟨Status.OK, [], hostArgs, [], []⟩).trace = 0 ∧
      (FuseRecvTensorAsync_run cpuEnv 5 sampleOpts ⟨7, [], 0⟩
        SeastarFuseTensorResponse.fresh ⟨Status.OK, [], hostArgs, [], []⟩).trace =
        [Event.SetCancelCallback (CancelCallback.logFuseRecvTensorCancelled
            (FuseRecvTensorRequest.mk 7 [] 0).step_id),
          Event.FuseRecvLocalAsync (FuseRecvTensorRequest.mk 7 [] 0).step_id [],
          Event.ClearCancelCallback] ∧
      (FuseRecvTensorAsync_run cpuEnv 5 sampleOpts ⟨7, [], 0⟩
        SeastarFuseTensorResponse.fresh ⟨Status.OK, [], hostArgs, [], []⟩).response.fuse_count
        = 0 :=
  FuseRecvTensorAsync_zero_keys_never_done cpuEnv 5 sampleOpts ⟨7, [], 0⟩
    SeastarFuseTensorResponse.fresh ⟨Status.OK, [], hostArgs, [], []⟩ rfl (by decide)

/-! ## Theorems: the handlers without a protocol -/

/-- C7: each of `RecvBufHandler`, `CompleteGroupHandler`,
`CompleteInstanceHandler` and `GetStepSequenceHandler`, for every call tag,
completes the call exactly once with an Unimplemented status on the calling
thread, schedules nothing on the worker pool and calls no worker method; and
these are the handlers the table holds for the four methods. -/
theorem unimplemented_handlers_complete_synchronously (env : ServiceEnv)
    (tag : SeastarServerTag) :
    completesUnimplemented tag (SeastarWorkerService.RecvBufHandler env tag) ∧
      completesUnimplemented tag (SeastarWorkerService.CompleteGroupHandler env tag) ∧
      completesUnimplemented tag (SeastarWorkerService.CompleteInstanceHandler env tag) ∧
      completesUnimplemented tag (SeastarWorkerService.GetStepSequenceHandler env tag) ∧
      SeastarWorkerService.GetHandler SeastarWorkerServiceMethod.kRecvBuf env tag
        = SeastarWorkerService.RecvBufHandler env tag ∧
      SeastarWorkerService.GetHandler SeastarWorkerServiceMethod.kCompleteGroup env tag
        = SeastarWorkerService.CompleteGroupHandler env tag ∧
      SeastarWorkerService.GetHandler SeastarWorkerServiceMethod.kCompleteInstance env tag
        = SeastarWorkerService.CompleteInstanceHandler env tag ∧
      SeastarWorkerService.GetHandler SeastarWorkerServiceMethod.kGetStepSequence env tag
        = SeastarWorkerService.GetStepSequenceHandler env tag := by
  refine ⟨⟨⟨_, rfl⟩, ?_, ?_, ?_⟩, ⟨⟨_, rfl⟩, ?_, ?_, ?_⟩, ⟨⟨_, rfl⟩, ?_, ?_, ?_⟩,
    ⟨⟨_, rfl⟩, ?_, ?_, ?_⟩, rfl, rfl, rfl, rfl⟩ <;>
  simp [SeastarWorkerService.RecvBufHandler, SeastarWorkerService.CompleteGroupHandler,
    SeastarWorkerService.CompleteInstanceHandler,
    SeastarWorkerService.GetStepSequenceHandler, ServiceEvent.isProcessDone,
    ServiceEvent.isSchedule, ServiceEvent.isWorkerCall]

/-! ## Theorems: the two representations of a value -/

/-- C8, refuted as stated: a host-accessible string value. The call completes
with OK, and the response holds the value both as the tensor and as the
serialized tensor proto. -/
theorem RecvTensorAsync_string_value_both_populated :
    (doneCalls (RecvTensorAsync_run cpuEnv 5 sampleOpts ⟨7, "K", 0⟩
        SeastarTensorResponse.fresh ⟨Status.OK, hostArgs, hostArgs, stringTensor, false⟩
        ⟨Status.OK, []⟩).trace).map Prod.fst = [Status.OK] ∧
      tensorPopulated (RecvTensorAsync_run cpuEnv 5 sampleOpts ⟨7, "K", 0⟩
        SeastarTensorResponse.fresh ⟨Status.OK, hostArgs, hostArgs, stringTensor, false⟩
        ⟨Status.OK, []⟩).response.tensor = true ∧
      protoPopulated (RecvTensorAsync_run cpuEnv 5 sampleOpts ⟨7, "K", 0⟩
        SeastarTensorResponse.fresh ⟨Status.OK, hostArgs, hostArgs, stringTensor, false⟩
        ⟨Status.OK, []⟩).response.tensor_proto = true ∧
      spec_exactlyOnePopulated
        (RecvTensorAsync_run cpuEnv 5 sampleOpts ⟨7, "K", 0⟩
          SeastarTensorResponse.fresh ⟨Status.OK, hostArgs, hostArgs, stringTensor, false⟩
          ⟨Status.OK, []⟩).response.tensor
        (RecvTensorAsync_run cpuEnv 5 sampleOpts ⟨7, "K", 0⟩
          SeastarTensorResponse.fresh ⟨Status.OK, hostArgs, hostArgs, stringTensor, false⟩
          ⟨Status.OK, []⟩).response.tensor_proto = false := by
  decide

theorem Status.ok_OK : Status.OK.ok = true := rfl

/-- The representations a successfully completed recv-tensor response holds. -/
theorem RecvTensorAsync_representations (env : WorkerEnv) (now : Int) (opts : CallOptions)
    (request : RecvTensorRequest) (response : SeastarTensorResponse)
    (lookup : RecvLocalResult) (copy : CopyResult)
    (hparse : (env.ParseKey request.rendezvous_key).1.ok = true)
    (hdev : (env.PrepareRecvTensor (env.ParseKey request.rendezvous_key).2).1.ok = true)
    (hok : lookup.status.ok = true)
    (hcheck : needsDeviceCopy (keyDevice env request.rendezvous_key) lookup.send_args = true →
      lookup.send_args.device_context = true ∧ copy.status.ok = true) :
    ∃ s r, doneCalls (RecvTensorAsync_run env now opts request response lookup copy).trace
          = [(s, r)] ∧ s.ok = true ∧
        r.tensor =
          (if needsDeviceCopy (keyDevice env request.rendezvous_key) lookup.send_args then
            ⟨lookup.val.dtype, lookup.val.shape, copy.data⟩
          else lookup.val) ∧
        r.tensor_proto =
          (if needsDeviceCopy (keyDevice env request.rendezvous_key) lookup.send_args then
            response.tensor_proto
          else if DataTypeCanUseMemcpy lookup.val.dtype then response.tensor_proto
          else lookup.val.AsProtoTensorContent response.tensor_proto) := by
  simp only [keyDevice, needsDeviceCopy] at hcheck ⊢
  rcases Bool.eq_false_or_eq_true
    ((env.PrepareRecvTensor (env.ParseKey request.rendezvous_key).2).2.tensorflow_gpu_device_info
      && !lookup.send_args.alloc_attrs.on_host) with hg | hg
  rotate_left
  · by_cases hm : DataTypeCanUseMemcpy lookup.val.dtype = true
    · simp [RecvTensorAsync_run, RecvTensorAsync, RecvLocalAsync_callback, hparse, hdev, hok,
        hg, hm, CallState.init, CallState.emit, CallState.done, CallState.SetCancelCallback,
        CallState.ClearCancelCallback, doneCalls, SeastarTensorResponse.SetTensor,
        SeastarTensorResponse.SetIsDead, SeastarTensorResponse.set_send_start_micros]
      exact ⟨_, _, ⟨rfl, rfl⟩, Status.ok_OK, rfl, rfl⟩
    · simp [RecvTensorAsync_run, RecvTensorAsync, RecvLocalAsync_callback, hparse, hdev, hok,
        hg, hm, CallState.init, CallState.emit, CallState.done, CallState.SetCancelCallback,
        CallState.ClearCancelCallback, doneCalls, SeastarTensorResponse.SetTensor,
        SeastarTensorResponse.SetIsDead, SeastarTensorResponse.set_send_start_micros]
      exact ⟨_, _, ⟨rfl, rfl⟩, Status.ok_OK, rfl, rfl⟩
  · obtain ⟨hc1, hc2⟩ := hcheck hg
    simp [RecvTensorAsync_run, RecvTensorAsync, RecvLocalAsync_callback,
      CopyDeviceTensorToCPU_callback, hparse, hdev, hok, hg, hc1, hc2,
      CallState.init, CallState.emit, CallState.done, CallState.SetCancelCallback,
      CallState.ClearCancelCallback, doneCalls, SeastarTensorResponse.SetTensor,
      SeastarTensorResponse.SetIsDead, SeastarTensorResponse.set_send_start_micros]
    exact ⟨_, _, ⟨rfl, rfl⟩, hc2, rfl, rfl⟩

/-- The representations the slots of a successfully completed fused response
hold. -/
theorem FuseRecvTensorAsync_representations (env : WorkerEnv) (now : Int)
    (opts : CallOptions) (request : FuseRecvTensorRequest)
    (response : SeastarFuseTensorResponse) (lookup : FuseRecvLocalResult)
    (hkeys : ∀ j, j < request.rendezvous_key_size →
      (keyStatus env (request.rendezvous_key.getD j "")).ok = true)
    (hok : lookup.status.ok = true)
    (hvals : lookup.vals.length = request.rendezvous_key_size)
    (hhost : ∀ j, j < request.rendezvous_key_size →
      needsDeviceCopy (keyDevice env (request.rendezvous_key.getD j ""))
        (lookup.send_argses.getD j default) = false) :
    ∀ sr ∈ doneCalls (FuseRecvTensorAsync_run env now opts request response lookup).trace,
      sr.1.ok = true → ∀ i, i < request.rendezvous_key_size →
        sr.2.tensors.getD i default = lookup.vals.getD i default ∧
        sr.2.tensor_protos.getD i default =
          (if DataTypeCanUseMemcpy (lookup.vals.getD i default).dtype then
            (response.Init request.rendezvous_key_size).tensor_protos.getD i default
          else (lookup.vals.getD i default).AsProtoTensorContent
            ((response.Init request.rendezvous_key_size).tensor_protos.getD i default)) := by
  rcases Nat.eq_zero_or_pos request.rendezvous_key_size with h0 | hpos
  · intro sr _ _ i hi
    omega
  · obtain ⟨pk, r, hf, _, hrun⟩ := FuseRecvTensorAsync_run_host env now opts request
      response lookup hkeys hok hpos hhost
    obtain ⟨_, _, htens, _, hproto⟩ := hf
    rw [hrun]
    intro sr hsr _ i hi
    simp [doneCalls] at hsr
    rw [hsr]
    have hrange : 0 ≤ i ∧ i < request.rendezvous_key_size := by omega
    constructor
    · rw [slotsMapped_const_eq _ _ _ request.rendezvous_key_size
        (by simp [SeastarFuseTensorResponse.Init, length_resize]) hvals htens]
    · have hlen : i < (response.Init request.rendezvous_key_size).tensor_protos.length := by
        simp [SeastarFuseTensorResponse.Init, length_resize]
        exact hi
      have h1 := hproto i
      rw [if_pos hrange] at h1
      have hr : r.tensor_protos.getD i default = hostProto lookup.vals i
          ((response.Init request.rendezvous_key_size).tensor_protos.getD i default) := by
        simp only [List.getD_eq_getElem?_getD, h1, List.getElem?_eq_getElem hlen,
          Option.map_some', Option.getD_some]
      rw [hr]
      rfl

/-! ## Theorems: registering and clearing the cancellation callback -/

/-- Around the lookup of a recv-tensor call: one registration right before
it, one clearing first thing in its completion, none afterwards. -/
theorem RecvTensorAsync_cancel_discipline (env : WorkerEnv) (now : Int) (opts : CallOptions)
    (request : RecvTensorRequest) (response : SeastarTensorResponse)
    (lookup : RecvLocalResult) (copy : CopyResult)
    (h : ∃ e ∈ (RecvTensorAsync_run env now opts request response lookup copy).trace,
      e.isLookup = true) :
    ∃ post, (RecvTensorAsync_run env now opts request response lookup copy).trace =
        Event.SetCancelCallback (CancelCallback.logRecvTensorCancelled request.step_id) ::
          Event.RecvLocalAsync request.step_id (env.ParseKey request.rendezvous_key).2 ::
          Event.ClearCancelCallback :: post ∧
      ∀ e ∈ post, e.isSetCancel = false ∧ e.isClearCancel = false ∧ e.isLookup = false := by
  rcases Bool.eq_false_or_eq_true (env.ParseKey request.rendezvous_key).1.ok with hp | hp
  rotate_left
  · exfalso
    simp [RecvTensorAsync_run, RecvTensorAsync, hp, CallState.init, CallState.emit,
      CallState.done, CallState.abort, Event.isLookup] at h
  rcases Bool.eq_false_or_eq_true
    (env.PrepareRecvTensor (env.ParseKey request.rendezvous_key).2).1.ok with hd | hd
  rotate_left
  · exfalso
    simp [RecvTensorAsync_run, RecvTensorAsync, hp, hd, CallState.init, CallState.emit,
      CallState.done, CallState.abort, Event.isLookup] at h
  rcases Bool.eq_false_or_eq_true lookup.status.ok with hl | hl
  rotate_left
  · simp [RecvTensorAsync_run, RecvTensorAsync, RecvLocalAsync_callback, hp, hd, hl,
      CallState.init, CallState.emit, CallState.done, CallState.SetCancelCallback,
      CallState.ClearCancelCallback, Event.isSetCancel, Event.isClearCancel, Event.isLookup]
  rcases Bool.eq_false_or_eq_true
    ((env.PrepareRecvTensor (env.ParseKey request.rendezvous_key).2).2.tensorflow_gpu_device_info
      && !lookup.send_args.alloc_attrs.on_host) with hg | hg
  rotate_left
  · by_cases hm : DataTypeCanUseMemcpy lookup.val.dtype = true <;>
    simp [RecvTensorAsync_run, RecvTensorAsync, RecvLocalAsync_callback, hp, hd, hl, hg, hm,
      CallState.init, CallState.emit, CallState.done, CallState.SetCancelCallback,
      CallState.ClearCancelCallback, Event.isSetCancel, Event.isClearCancel, Event.isLookup]
  rcases Bool.eq_false_or_eq_true lookup.send_args.device_context with hc | hc
  rotate_left
  · simp [RecvTensorAsync_run, RecvTensorAsync, RecvLocalAsync_callback, hp, hd, hl, hg, hc,
      CallState.init, CallState.emit, CallState.CheckFailed, CallState.SetCancelCallback,
      CallState.ClearCancelCallback, Event.isSetCancel, Event.isClearCancel, Event.isLookup]
  rcases Bool.eq_false_or_eq_true copy.status.ok with hs | hs <;>
  simp [RecvTensorAsync_run, RecvTensorAsync, RecvLocalAsync_callback,
    CopyDeviceTensorToCPU_callback, hp, hd, hl, hg, hc, hs,
    CallState.init, CallState.emit, CallState.done, CallState.CheckFailed,
    CallState.SetCancelCallback, CallState.ClearCancelCallback, Event.isSetCancel,
    Event.isClearCancel, Event.isLookup]

/-- The key loop either runs through, leaving the call state alone, or reports
one failure and returns. -/
theorem FuseRecvTensorAsync.keyLoop_cases (env : WorkerEnv) (request : FuseRecvTensorRequest)
    (st : CallState SeastarFuseTensorResponse) :
    ∀ (n idx : Nat) (pk : List ParsedKey) (sd : List Device),
      (∃ pk' sd', FuseRecvTensorAsync.keyLoop env request st n idx pk sd
          = (st, some (pk', sd'))) ∨
      (∃ msg s, FuseRecvTensorAsync.keyLoop env request st n idx pk sd
          = (((st.emit (Event.LogWarning msg)).emit Event.delete_src_devs).done s, none)) := by
  intro n
  induction n with
  | zero => intro idx pk sd; exact Or.inl ⟨pk, sd, rfl⟩
  | succ n ih =>
    intro idx pk sd
    rw [FuseRecvTensorAsync.keyLoop]
    simp only []
    split_ifs <;> first | exact Or.inr ⟨_, _, rfl⟩ | exact ih _ _ _

/-- Around the batched lookup of a fused call: one registration right before
it, one clearing first thing in its completion, none afterwards. -/
theorem FuseRecvTensorAsync_cancel_discipline (env : WorkerEnv) (now : Int)
    (opts : CallOptions) (request : FuseRecvTensorRequest)
    (response : SeastarFuseTensorResponse) (lookup : FuseRecvLocalResult)
    (h : ∃ e ∈ (FuseRecvTensorAsync_run env now opts request response lookup).trace,
      e.isLookup = true) :
    ∃ pk post, (FuseRecvTensorAsync_run env now opts request response lookup).trace =
        Event.SetCancelCallback (CancelCallback.logFuseRecvTensorCancelled request.step_id) ::
          Event.FuseRecvLocalAsync request.step_id pk ::
          Event.ClearCancelCallback :: post ∧
      ∀ e ∈ post, e.isSetCancel = false ∧ e.isClearCancel = false ∧ e.isLookup = false := by
  rcases FuseRecvTensorAsync.keyLoop_cases env request (CallState.init opts response)
    request.rendezvous_key_size 0 (List.replicate request.rendezvous_key_size default)
    (List.replicate request.rendezvous_key_size default) with ⟨pk, sd, hloop⟩ | ⟨msg, s, hloop⟩
  · simp only [FuseRecvTensorAsync_run, FuseRecvTensorAsync, hloop]
    have hext : traceExtends
        (((CallState.init opts response).SetCancelCallback
          (CancelCallback.logFuseRecvTensorCancelled request.step_id)).emit
            (Event.FuseRecvLocalAsync request.step_id pk)).ClearCancelCallback
        (FuseRecvLocalAsync_callback now
          ⟨request, request.rendezvous_key_size, sd, request.step_id⟩
          (((CallState.init opts response).SetCancelCallback
            (CancelCallback.logFuseRecvTensorCancelled request.step_id)).emit
              (Event.FuseRecvLocalAsync request.step_id pk))
          lookup.status lookup.send_argses lookup.recv_args lookup.vals lookup.is_deads) := by
      simp only [FuseRecvLocalAsync_callback]
      split
      · exact traceExtends_trans (traceExtends_response _ _)
          (FuseRecvLocalAsync_callback.slotLoop_traceExtends _ _ _ _ _ _ _ _)
      · exact traceExtends_trans (traceExtends_emit _ Event.delete_src_devs ⟨rfl, rfl, rfl⟩)
          (traceExtends_done _ _)
    obtain ⟨_, post, hpost, hben⟩ := hext
    refine ⟨pk, post, ?_, hben⟩
    rw [hpost]
    rfl
  · exfalso
    simp only [FuseRecvTensorAsync_run, FuseRecvTensorAsync, hloop] at h
    simp [CallState.init, CallState.emit, CallState.done, Event.isLookup] at h

/-- The counts that follow from the bracketing of a lookup. -/
theorem bracketed_counts {R : Type} (cb : CancelCallback) (lk : Event R)
    (post : List (Event R)) (hlk : lk.isLookup = true)
    (hpost : ∀ e ∈ post,
      e.isSetCancel = false ∧ e.isClearCancel = false ∧ e.isLookup = false) :
    (Event.SetCancelCallback cb :: lk :: Event.ClearCancelCallback :: post).countP
        Event.isSetCancel = 1 ∧
      (Event.SetCancelCallback cb :: lk :: Event.ClearCancelCallback :: post).countP
        Event.isClearCancel = 1 ∧
      (Event.SetCancelCallback cb :: lk :: Event.ClearCancelCallback :: post).countP
        Event.isLookup = 1 := by
  have h1 : post.countP Event.isSetCancel = 0 :=
    List.countP_eq_zero.mpr (fun e he => by simp [(hpost e he).1])
  have h2 : post.countP Event.isClearCancel = 0 :=
    List.countP_eq_zero.mpr (fun e he => by simp [(hpost e he).2.1])
  have h3 : post.countP Event.isLookup = 0 :=
    List.countP_eq_zero.mpr (fun e he => by simp [(hpost e he).2.2])
  have hs : lk.isSetCancel = false := by cases lk <;> simp_all [Event.isSetCancel, Event.isLookup]
  have hc : lk.isClearCancel = false := by
    cases lk <;> simp_all [Event.isClearCancel, Event.isLookup]
  have a1 : (Event.SetCancelCallback cb : Event R).isSetCancel = true := rfl
  have a2 : (Event.SetCancelCallback cb : Event R).isClearCancel = false := rfl
  have a3 : (Event.SetCancelCallback cb : Event R).isLookup = false := rfl
  have b1 : (Event.ClearCancelCallback : Event R).isSetCancel = false := rfl
  have b2 : (Event.ClearCancelCallback : Event R).isClearCancel = true := rfl
  have b3 : (Event.ClearCancelCallback : Event R).isLookup = false := rfl
  simp [List.countP_cons, h1, h2, h3, hs, hc, hlk, a1, a2, a3, b1, b2, b3]

/-- C10: in `RecvTensorAsync` and in `FuseRecvTensorAsync`, whenever a lookup is
issued, the trace is: one `SetCancelCallback`, then the lookup (for the fused
call one batched lookup for all keys), then `ClearCancelCallback` as the
first thing of the lookup's completion, then events among which there is no
further registration, clearing or lookup. So there is exactly one
registration, before the lookup, and exactly one clearing, before any
invocation of `done`, whatever the lookup reports. -/
theorem cancel_callback_set_once_cleared_once (env : WorkerEnv) (now : Int)
    (opts : CallOptions) (request : RecvTensorRequest) (response : SeastarTensorResponse)
    (lookup : RecvLocalResult) (copy : CopyResult) (frequest : FuseRecvTensorRequest)
    (fresponse : SeastarFuseTensorResponse) (flookup : FuseRecvLocalResult)
    (h : ∃ e ∈ (RecvTensorAsync_run env now opts request response lookup copy).trace,
      e.isLookup = true)
    (hf : ∃ e ∈ (FuseRecvTensorAsync_run env now opts frequest fresponse flookup).trace,
      e.isLookup = true) :
    (∃ post, (RecvTensorAsync_run env now opts request response lookup copy).trace =
        Event.SetCancelCallback (CancelCallback.logRecvTensorCancelled request.step_id) ::
          Event.RecvLocalAsync request.step_id (env.ParseKey request.rendezvous_key).2 ::
          Event.ClearCancelCallback :: post ∧
        (∀ e ∈ post, e.isSetCancel = false ∧ e.isClearCancel = false ∧ e.isLookup = false) ∧
        (RecvTensorAsync_run env now opts request response lookup copy).trace.countP
          Event.isSetCancel = 1 ∧
        (RecvTensorAsync_run env now opts request response lookup copy).trace.countP
          Event.isClearCancel = 1) ∧
      (∃ pk post, (FuseRecvTensorAsync_run env now opts frequest fresponse flookup).trace =
        Event.SetCancelCallback (CancelCallback.logFuseRecvTensorCancelled frequest.step_id) ::
          Event.FuseRecvLocalAsync frequest.step_id pk ::
          Event.ClearCancelCallback :: post ∧
        (∀ e ∈ post, e.isSetCancel = false ∧ e.isClearCancel = false ∧ e.isLookup = false) ∧
        (FuseRecvTensorAsync_run env now opts frequest fresponse flookup).trace.countP
          Event.isSetCancel = 1 ∧
        (FuseRecvTensorAsync_run env now opts frequest fresponse flookup).trace.countP
          Event.isClearCancel = 1 ∧
        (FuseRecvTensorAsync_run env now opts frequest fresponse flookup).trace.countP
          Event.isLookup = 1) := by
  obtain ⟨post, ht, hp⟩ := RecvTensorAsync_cancel_discipline env now opts request response
    lookup copy h
  obtain ⟨pk, fpost, hft, hfp⟩ := FuseRecvTensorAsync_cancel_discipline env now opts frequest
    fresponse flookup hf
  have c1 := bracketed_counts (CancelCallback.logRecvTensorCancelled request.step_id)
    (Event.RecvLocalAsync request.step_id (env.ParseKey request.rendezvous_key).2) post rfl hp
  have c2 := bracketed_counts (CancelCallback.logFuseRecvTensorCancelled frequest.step_id)
    (Event.FuseRecvLocalAsync frequest.step_id pk) fpost rfl hfp
  refine ⟨⟨post, ht, hp, ?_, ?_⟩, ⟨pk, fpost, hft, hfp, ?_, ?_, ?_⟩⟩
  · rw [ht]; exact c1.1
  · rw [ht]; exact c1.2.1
  · rw [hft]; exact c2.1
  · rw [hft]; exact c2.2.1
  · rw [hft]; exact c2.2.2

/-- C10, at sample inputs: a recv-tensor call and a fused call on CPU devices. -/
theorem cancel_callback_set_once_cleared_once_witness :
    (∃ post, (RecvTensorAsync_run cpuEnv 5 sampleOpts sampleRecvRequest
          SeastarTensorResponse.fresh sampleFloatLookup sampleCopy).trace =
        Event.SetCancelCallback
            (CancelCallback.logRecvTensorCancelled sampleRecvRequest.step_id) ::
          Event.RecvLocalAsync sampleRecvRequest.step_id
            (cpuEnv.ParseKey sampleRecvRequest.rendezvous_key).2 ::
          Event.ClearCancelCallback :: post ∧
        (∀ e ∈ post, e.isSetCancel = false ∧ e.isClearCancel = false ∧ e.isLookup = false) ∧
        (RecvTensorAsync_run cpuEnv 5 sampleOpts sampleRecvRequest
          SeastarTensorResponse.fresh sampleFloatLookup sampleCopy).trace.countP
          Event.isSetCancel = 1 ∧
        (RecvTensorAsync_run cpuEnv 5 sampleOpts sampleRecvRequest
          SeastarTensorResponse.fresh sampleFloatLookup sampleCopy).trace.countP
          Event.isClearCancel = 1) ∧
      (∃ pk post, (FuseRecvTensorAsync_run cpuEnv 5 sampleOpts sampleFuseRequest
          SeastarFuseTensorResponse.fresh sampleFuseLookup).trace =
        Event.SetCancelCallback
            (CancelCallback.logFuseRecvTensorCancelled sampleFuseRequest.step_id) ::
          Event.FuseRecvLocalAsync sampleFuseRequest.step_id pk ::
          Event.ClearCancelCallback :: post ∧
        (∀ e ∈ post, e.isSetCancel = false ∧ e.isClearCancel = false ∧ e.isLookup = false) ∧
        (FuseRecvTensorAsync_run cpuEnv 5 sampleOpts sampleFuseRequest
          SeastarFuseTensorResponse.fresh sampleFuseLookup).trace.countP
          Event.isSetCancel = 1 ∧
        (FuseRecvTensorAsync_run cpuEnv 5 sampleOpts sampleFuseRequest
          SeastarFuseTensorResponse.fresh sampleFuseLookup).trace.countP
          Event.isClearCancel = 1 ∧
        (FuseRecvTensorAsync_run cpuEnv 5 sampleOpts sampleFuseRequest
          SeastarFuseTensorResponse.fresh sampleFuseLookup).trace.countP
          Event.isLookup = 1) :=
  cancel_callback_set_once_cleared_once cpuEnv 5 sampleOpts sampleRecvRequest
    SeastarTensorResponse.fresh sampleFloatLookup sampleCopy sampleFuseRequest
    SeastarFuseTensorResponse.fresh sampleFuseLookup (by decide) (by decide)

/-- C8, amended: a successfully completed recv-tensor response always holds the
directly usable tensor (the value itself, or its host copy after a
device-to-host copy), and holds the serialized tensor proto in addition
exactly when the value was host-accessible and its element type cannot use
memcpy; otherwise the tensor proto is left as it was. The same holds for
every slot of a successfully completed fused response. -/
theorem response_tensor_always_proto_iff_not_memcpy (env : WorkerEnv) (now : Int)
    (opts : CallOptions) (request : RecvTensorRequest) (response : SeastarTensorResponse)
    (lookup : RecvLocalResult) (copy : CopyResult) (frequest : FuseRecvTensorRequest)
    (fresponse : SeastarFuseTensorResponse) (flookup : FuseRecvLocalResult)
    (hparse : (env.ParseKey request.rendezvous_key).1.ok = true)
    (hdev : (env.PrepareRecvTensor (env.ParseKey request.rendezvous_key).2).1.ok = true)
    (hok : lookup.status.ok = true)
    (hcheck : needsDeviceCopy (keyDevice env request.rendezvous_key) lookup.send_args = true →
      lookup.send_args.device_context = true ∧ copy.status.ok = true)
    (hkeys : ∀ j, j < frequest.rendezvous_key_size →
      (keyStatus env (frequest.rendezvous_key.getD j "")).ok = true)
    (hfok : flookup.status.ok = true)
    (hvals : flookup.vals.length = frequest.rendezvous_key_size)
    (hhost : ∀ j, j < frequest.rendezvous_key_size →
      needsDeviceCopy (keyDevice env (frequest.rendezvous_key.getD j ""))
        (flookup.send_argses.getD j default) = false) :
    (∃ s r, doneCalls (RecvTensorAsync_run env now opts request response lookup copy).trace
          = [(s, r)] ∧ s.ok = true ∧
        r.tensor =
          (if needsDeviceCopy (keyDevice env request.rendezvous_key) lookup.send_args then
            ⟨lookup.val.dtype, lookup.val.shape, copy.data⟩
          else lookup.val) ∧
        r.tensor_proto =
          (if needsDeviceCopy (keyDevice env request.rendezvous_key) lookup.send_args then
            response.tensor_proto
          else if DataTypeCanUseMemcpy lookup.val.dtype then response.tensor_proto
          else lookup.val.AsProtoTensorContent response.tensor_proto)) ∧
      (∀ sr ∈ doneCalls
          (FuseRecvTensorAsync_run env now opts frequest fresponse flookup).trace,
        sr.1.ok = true → ∀ i, i < frequest.rendezvous_key_size →
          sr.2.tensors.getD i default = flookup.vals.getD i default ∧
          sr.2.tensor_protos.getD i default =
            (if DataTypeCanUseMemcpy (flookup.vals.getD i default).dtype then
              (fresponse.Init frequest.rendezvous_key_size).tensor_protos.getD i default
            else (flookup.vals.getD i default).AsProtoTensorContent
              ((fresponse.Init frequest.rendezvous_key_size).tensor_protos.getD i default))) :=
  ⟨RecvTensorAsync_representations env now opts request response lookup copy hparse hdev
      hok hcheck,
    FuseRecvTensorAsync_representations env now opts frequest fresponse flookup hkeys hfok
      hvals hhost⟩

/-- C8 amended, at sample inputs: a host-resident string value, and a fused
call for a float value and a string value. -/
theorem response_tensor_always_proto_iff_not_memcpy_witness :
    (∃ s r, doneCalls (RecvTensorAsync_run cpuEnv 5 sampleOpts sampleRecvRequest
            SeastarTensorResponse.fresh sampleStringLookup sampleCopy).trace
          = [(s, r)] ∧ s.ok = true ∧
        r.tensor =
          (if needsDeviceCopy (keyDevice cpuEnv sampleRecvRequest.rendezvous_key)
              sampleStringLookup.send_args then
            ⟨sampleStringLookup.val.dtype, sampleStringLookup.val.shape, sampleCopy.data⟩
          else sampleStringLookup.val) ∧
        r.tensor_proto =
          (if needsDeviceCopy (keyDevice cpuEnv sampleRecvRequest.rendezvous_key)
              sampleStringLookup.send_args then
            SeastarTensorResponse.fresh.tensor_proto
          else if DataTypeCanUseMemcpy sampleStringLookup.val.dtype then
            SeastarTensorResponse.fresh.tensor_proto
          else sampleStringLookup.val.AsProtoTensorContent
            SeastarTensorResponse.fresh.tensor_proto)) ∧
      (∀ sr ∈ doneCalls
          (FuseRecvTensorAsync_run cpuEnv 5 sampleOpts sampleFuseRequest
            SeastarFuseTensorResponse.fresh sampleFuseLookup).trace,
        sr.1.ok = true → ∀ i, i < sampleFuseRequest.rendezvous_key_size →
          sr.2.tensors.getD i default = sampleFuseLookup.vals.getD i default ∧
          sr.2.tensor_protos.getD i default =
            (if DataTypeCanUseMemcpy (sampleFuseLookup.vals.getD i default).dtype then
              (SeastarFuseTensorResponse.fresh.Init
                sampleFuseRequest.rendezvous_key_size).tensor_protos.getD i default
            else (sampleFuseLookup.vals.getD i default).AsProtoTensorContent
              ((SeastarFuseTensorResponse.fresh.Init
                sampleFuseRequest.rendezvous_key_size).tensor_protos.getD i default))) :=
  response_tensor_always_proto_iff_not_memcpy cpuEnv 5 sampleOpts sampleRecvRequest
    SeastarTensorResponse.fresh sampleStringLookup sampleCopy sampleFuseRequest
    SeastarFuseTensorResponse.fresh sampleFuseLookup (by decide) (by decide) (by decide)
    (fun hc => absurd hc (by decide)) (by decide) (by decide) (by decide) (by decide)

/-! ## Theorems: how often a fused call completes -/

theorem countSlots_le (p : Nat → Bool) : ∀ n idx, countSlots p n idx ≤ n := by
  intro n
  induction n with
  | zero => intro idx; simp [countSlots]
  | succ n ih =>
    intro idx
    have := ih (idx + 1)
    rw [countSlots]
    split <;> omega

theorem countSlots_congr (p q : Nat → Bool) :
    ∀ n idx, (∀ j, idx ≤ j → j < idx + n → p j = q j) →
      countSlots p n idx = countSlots q n idx := by
  intro n
  induction n with
  | zero => intro idx _; rfl
  | succ n ih =>
    intro idx h
    rw [countSlots, countSlots, h idx (le_refl _) (by omega),
      ih (idx + 1) (fun j h1 h2 => h j (by omega) (by omega))]

/-- One iteration of the slot loop on a GPU-resident value: the completion
callback is invoked with the Internal error, the counter is not touched. -/
theorem FuseRecvLocalAsync_callback.slotBody_gpu (now : Int) (src_devs : List Device)
    (send_argses : List Args) (vals : List Tensor) (is_deads : List Bool) (idx : Nat)
    (st : CallState SeastarFuseTensorResponse) (c : Int)
    (hgpu : needsDeviceCopy (src_devs.getD idx default) (send_argses.getD idx default)
      = true) :
    FuseRecvLocalAsync_callback.slotBody now src_devs send_argses vals is_deads idx (st, c) =
      (({ st with response :=
            st.response.SetIsDeadByIndex idx (is_deads.getD idx default) }).done
          (errors.Internal "No GPU device in process"), c) := by
  simp only [needsDeviceCopy] at hgpu
  simp only [FuseRecvLocalAsync_callback.slotBody, hgpu, if_true]

/-- The slot loop invokes the completion callback once for every GPU-resident
value, and once more if the counter reaches zero on the way. -/
theorem FuseRecvLocalAsync_callback.slotLoop_doneCount (now : Int) (src_devs : List Device)
    (send_argses : List Args) (vals : List Tensor) (is_deads : List Bool) :
    ∀ (n idx : Nat) (st : CallState SeastarFuseTensorResponse) (c : Int),
      doneCount (FuseRecvLocalAsync_callback.slotLoop now src_devs send_argses vals is_deads
          n idx (st, c)).1.trace =
        doneCount st.trace +
          countSlots (fun j => needsDeviceCopy (src_devs.getD j default)
            (send_argses.getD j default)) n idx +
          (if 1 ≤ c ∧ c ≤ (n : Int) - (countSlots (fun j => needsDeviceCopy
              (src_devs.getD j default) (send_argses.getD j default)) n idx : Nat)
            then 1 else 0) := by
  intro n
  induction n with
  | zero =>
    intro idx st c
    have : ¬ (1 ≤ c ∧ c ≤ ((0 : Nat) : Int) - ((0 : Nat) : Int)) := by omega
    simp only [FuseRecvLocalAsync_callback.slotLoop, countSlots, if_neg this, Nat.add_zero]
  | succ n ih =>
    intro idx st c
    have hle := countSlots_le (fun j => needsDeviceCopy (src_devs.getD j default)
      (send_argses.getD j default)) n (idx + 1)
    rw [FuseRecvLocalAsync_callback.slotLoop, countSlots]
    rcases Bool.eq_false_or_eq_true (needsDeviceCopy (src_devs.getD idx default)
      (send_argses.getD idx default)) with hg | hg
    · rw [FuseRecvLocalAsync_callback.slotBody_gpu now src_devs send_argses vals is_deads
        idx st c hg, ih]
      simp only [hg, if_true, CallState.done, CallState.emit, doneCount_append]
      have hd : doneCount [Event.done (errors.Internal "No GPU device in process")
          (st.response.SetIsDeadByIndex idx (is_deads.getD idx default))] = 1 := rfl
      rw [hd]
      push_cast
      split_ifs <;> omega
    · obtain ⟨r1, _, hb⟩ := FuseRecvLocalAsync_callback.slotBody_host now src_devs
        send_argses vals is_deads idx st c hg
      rw [hb]
      by_cases hc : c - 1 = 0
      · rw [if_pos hc, ih]
        simp only [hg, doneCount_append]
        have hd : doneCount [Event.done Status.OK (r1.set_send_start_micros now),
            Event.delete_src_devs, Event.delete_fuse_counter] = 1 := rfl
        rw [hd]
        push_cast
        split_ifs <;> omega
      · rw [if_neg hc, ih]
        simp only [hg]
        push_cast
        split_ifs <;> omega

/-- On the code, for every fused call whose keys are all prepared and whose
batched lookup succeeds: the completion callback is invoked once for every
value that is GPU-resident and not host-resident; when there is no such value
it is invoked once if there is at least one key and not at all if there is
none. -/
theorem FuseRecvTensorAsync_doneCount (env : WorkerEnv) (now : Int) (opts : CallOptions)
    (request : FuseRecvTensorRequest) (response : SeastarFuseTensorResponse)
    (lookup : FuseRecvLocalResult)
    (hkeys : ∀ j, j < request.rendezvous_key_size →
      (keyStatus env (request.rendezvous_key.getD j "")).ok = true)
    (hok : lookup.status.ok = true) :
    doneCount (FuseRecvTensorAsync_run env now opts request response lookup).trace =
      countSlots (fun j => needsDeviceCopy (keyDevice env (request.rendezvous_key.getD j ""))
          (lookup.send_argses.getD j default)) request.rendezvous_key_size 0 +
        (if countSlots (fun j => needsDeviceCopy
              (keyDevice env (request.rendezvous_key.getD j ""))
              (lookup.send_argses.getD j default)) request.rendezvous_key_size 0 = 0 ∧
            0 < request.rendezvous_key_size then 1 else 0) := by
  obtain ⟨pk, sd, hloop, hsd⟩ := FuseRecvTensorAsync.keyLoop_ok env request
    (CallState.init opts response) request.rendezvous_key_size 0
    (List.replicate request.rendezvous_key_size default)
    (List.replicate request.rendezvous_key_size default) (by simp) (by simp)
    (fun j _ hj => hkeys j (by omega))
  have hdev : ∀ j, j < request.rendezvous_key_size →
      sd.getD j default = keyDevice env (request.rendezvous_key.getD j "") := by
    intro j hj
    have h1 : 0 ≤ j ∧ j < 0 + request.rendezvous_key_size := by omega
    rw [List.getD_eq_getElem?_getD, hsd j, if_pos h1]
    rfl
  have hcongr := countSlots_congr
    (fun j => needsDeviceCopy (sd.getD j default) (lookup.send_argses.getD j default))
    (fun j => needsDeviceCopy (keyDevice env (request.rendezvous_key.getD j ""))
      (lookup.send_argses.getD j default)) request.rendezvous_key_size 0
    (fun j _ hj => by
      have hj' : j < request.rendezvous_key_size := by omega
      simp only [hdev j hj'])
  have hle := countSlots_le
    (fun j => needsDeviceCopy (keyDevice env (request.rendezvous_key.getD j ""))
      (lookup.send_argses.getD j default)) request.rendezvous_key_size 0
  simp only [FuseRecvTensorAsync_run, FuseRecvTensorAsync, hloop,
    FuseRecvLocalAsync_callback, hok, if_true]
  rw [FuseRecvLocalAsync_callback.slotLoop_doneCount, hcongr]
  have h0 : doneCount (CallState.ClearCancelCallback
      (((CallState.init opts response).SetCancelCallback
        (CancelCallback.logFuseRecvTensorCancelled request.step_id)).emit
          (Event.FuseRecvLocalAsync request.step_id pk))).trace = 0 := rfl
  simp only [h0, Nat.zero_add]
  split_ifs <;> omega

/-! ## Theorems: `SeastarTensorResponse::InitAlloc` and `Clear` -/

/-- C11: for every prior state of a response, every device `d` and allocator
attributes `aa`, after `InitAlloc(d, aa)` the on-host flag is true if and only
if `aa.on_host()` holds or the device type of `d` is "CPU" (whatever the flag
was before), the device is `d`, the allocator attributes are `aa`, the
allocator is the allocator of `d` for `aa`, and the tensor and the tensor
proto are the empty ones; and `Clear` is idempotent. -/
theorem InitAlloc_on_host_iff_and_fields_reset (r : SeastarTensorResponse) (d : Device)
    (aa : AllocatorAttributes) :
    ((r.InitAlloc d aa).on_host = true ↔ (aa.on_host = true ∨ d.device_type = "CPU")) ∧
      (r.InitAlloc d aa).device = some d ∧
      (r.InitAlloc d aa).alloc_attrs = aa ∧
      (r.InitAlloc d aa).allocator = some (d.GetAllocator aa) ∧
      (r.InitAlloc d aa).tensor = Tensor.empty ∧
      (r.InitAlloc d aa).tensor_proto = TensorProto.empty ∧
      r.Clear.Clear = r.Clear := by
  have hclear : r.Clear.Clear = r.Clear := rfl
  by_cases h : aa.on_host = true ∨ d.device_type = "CPU"
  · have hc : (aa.on_host || d.device_type == "CPU") = true := by
      rcases h with h | h
      · simp [h]
      · simp [h]
    simp [SeastarTensorResponse.InitAlloc, SeastarTensorResponse.Clear, hc, h]
  · have hc : (aa.on_host || d.device_type == "CPU") = false := by
      simp only [not_or] at h
      simp [h.1, h.2]
    simp [SeastarTensorResponse.InitAlloc, SeastarTensorResponse.Clear, hc, h]

end tensorflow
